import Mathlib

/-!
The M-Pesa (Daraja) integration layer of nodejs-mpesa.

A shallow embedding of `src/middleware/mpesaMiddleWare.js`,
`src/controllers/darajaApis.js`, `src/middleware/errorhandling.js` and
`src/routes/mpesaRoutes.js`.

Modelling conventions.

* A JavaScript value that can reach this program (a parsed JSON body, an
  environment variable, a value computed from them) is a `JVal`.
* A JavaScript string is a Lean `String`, a sequence of Unicode scalar values.
  Lengths and offsets count characters, which agrees with JavaScript's count of
  UTF-16 code units on the Basic Multilingual Plane; lone surrogates are not
  represented.
* A JavaScript number is a `JNum`: `NaN`, the two infinities, or a finite
  number given by its mathematical value (the sign of zero is not
  represented). A number read from a string is rounded to the nearest IEEE 754
  double (`roundToDouble`); a number found in a parsed body is taken as it is
  given, and the only arithmetic the program does on numbers, subtracting 1
  from the value of a two-character string, is exact in doubles.
* A `Date` is its time value in milliseconds, read in a local zone identical
  to UTC (`TZ=UTC`), so that `LocalTime(t) = t`.
* An Express handler is a function from the world (configuration, clock and
  what the provider answers) and the request object to the side effects it
  performs, the request object it leaves behind and the way it ends
  (`next()`, `next(error)`, a response, or an exception escaping it).
-/

namespace Mpesa

/-! ## JavaScript numbers -/

/-- A JavaScript Number. -/
inductive JNum where
  | nan
  | posInf
  | negInf
  | fin (q : ℚ)
  deriving DecidableEq

namespace JNum

/-- Unary minus. -/
def neg : JNum → JNum
  | nan => nan
  | posInf => negInf
  | negInf => posInf
  | fin q => fin (-q)

/-- Number addition (`Number::add`). -/
def add : JNum → JNum → JNum
  | nan, _ => nan
  | _, nan => nan
  | posInf, negInf => nan
  | negInf, posInf => nan
  | posInf, _ => posInf
  | _, posInf => posInf
  | negInf, _ => negInf
  | _, negInf => negInf
  | fin a, fin b => fin (mkRat (a.num * b.den + b.num * a.den) (a.den * b.den))

/-- Number subtraction (`Number::subtract`). -/
def sub (a b : JNum) : JNum := add a (neg b)

/-- ToBoolean on a Number: `0` and `NaN` are falsy. -/
def truthy : JNum → Bool
  | nan => false
  | fin q => decide (q ≠ 0)
  | _ => true

/-- The comparison `n > 0`. -/
def isPositive : JNum → Bool
  | posInf => true
  | fin q => decide (0 < q.num)
  | _ => false

/-- ToIntegerOrInfinity restricted to finite numbers: truncation toward zero;
`none` for `NaN` and the infinities. -/
def toInteger? : JNum → Option Int
  | fin q => some (Int.tdiv q.num (q.den : Int))
  | _ => none

end JNum

/-! ## JavaScript values -/

/-- A JavaScript value: the primitives, arrays and plain objects. An object is
the list of its own properties, each key held once. -/
inductive JVal where
  | undefined
  | null
  | bool (b : Bool)
  | num (n : JNum)
  | str (s : String)
  | arr (xs : List JVal)
  | obj (fields : List (String × JVal))

namespace JVal

/-- An integer-valued number. -/
def int (i : Int) : JVal := num (JNum.fin (i : ℚ))

/-- ToBoolean. -/
def truthy : JVal → Bool
  | undefined => false
  | null => false
  | bool b => b
  | num n => n.truthy
  | str s => decide (s ≠ "")
  | arr _ => true
  | obj _ => true

/-- Whether the value is `undefined` or `null`. -/
def isNullish : JVal → Bool
  | undefined => true
  | null => true
  | _ => false

/-- The property read `v[k]` on a value that is not nullish, for a key that is
neither `length`, an index, nor a name found on a built-in prototype (every key
this program reads is such a key): an own property of an object, `undefined`
on anything else. -/
def get (v : JVal) (k : String) : JVal :=
  match v with
  | obj fields => (fields.lookup k).getD undefined
  | _ => undefined

/-- Whether an object has an own property `k`. -/
def hasOwn (v : JVal) (k : String) : Bool :=
  match v with
  | obj fields => (fields.lookup k).isSome
  | _ => false

/-- Optional chaining `v?.k`. -/
def opt (v : JVal) (k : String) : JVal :=
  if v.isNullish then undefined else v.get k

/-- Strict equality with a string constant: `v === s`. -/
def strictEqStr (v : JVal) (s : String) : Bool :=
  match v with
  | str t => decide (t = s)
  | _ => false

/-- Strict equality with the number zero: `v === 0`. -/
def strictEqZero (v : JVal) : Bool :=
  match v with
  | num (JNum.fin q) => decide (q = 0)
  | _ => false

end JVal

/-! ## Errors -/

/-- An Error object: its constructor name, its message and its `status`
property (absent unless the program sets it). -/
structure JSError where
  name : String
  message : String
  status : Option Nat
  deriving DecidableEq

/-- The TypeError an engine raises; the message text is engine specific. -/
def typeError (what : String) : JSError :=
  { name := "TypeError", message := what, status := none }

/-- The value of `new Error(message)`. -/
def newError (message : String) : JSError :=
  { name := "Error", message := message, status := none }

/-- The property read `v.k`: a TypeError on `undefined` and `null`. -/
def getProp (v : JVal) (k : String) : Except JSError JVal :=
  if v.isNullish then Except.error (typeError ("Cannot read properties of undefined or null: " ++ k))
  else Except.ok (v.get k)

/-! ## Strings -/

/-- String.prototype.substring for `start ≤ stop`. -/
def substring (s : String) (start stop : Nat) : String :=
  String.mk ((s.data.drop start).take (stop - start))

/-- String.prototype.padStart with a one-character filler. -/
def padStart (s : String) (targetLength : Nat) (fill : Char) : String :=
  String.mk (List.replicate (targetLength - s.length) fill ++ s.data)

/-- The replacement `s.replace(/\D/g, '')`: every character that is not a
decimal digit is removed. -/
def removeNonDigits (s : String) : String :=
  String.mk (s.data.filter Char.isDigit)

/-- The value of a run of decimal digits. -/
def digitsValue (cs : List Char) : Nat :=
  cs.foldl (fun acc c => 10 * acc + (c.toNat - 48)) 0

/-- The value of a run of digits in the given radix (2, 8 or 16); `none` when a
character is not a digit of that radix. -/
def radixDigit? (radix : Nat) (c : Char) : Option Nat :=
  let v :=
    if c.isDigit then c.toNat - 48
    else if 97 ≤ c.toNat ∧ c.toNat ≤ 102 then c.toNat - 87
    else if 65 ≤ c.toNat ∧ c.toNat ≤ 70 then c.toNat - 55
    else radix
  if v < radix then some v else none

/-- The value of a non-empty run of digits in the given radix. -/
def radixValue? (radix : Nat) (cs : List Char) : Option Nat :=
  if cs = [] then none
  else cs.foldl (fun acc c => acc.bind (fun a => (radixDigit? radix c).map (fun d => radix * a + d))) (some 0)

/-- StrWhiteSpaceChar: WhiteSpace and LineTerminator. -/
def isStrWhiteSpaceChar (c : Char) : Bool :=
  let n := c.toNat
  decide (n = 9 ∨ n = 10 ∨ n = 11 ∨ n = 12 ∨ n = 13 ∨ n = 32 ∨ n = 160 ∨ n = 5760
    ∨ (8192 ≤ n ∧ n ≤ 8202) ∨ n = 8232 ∨ n = 8233 ∨ n = 8239 ∨ n = 8287 ∨ n = 12288
    ∨ n = 65279)

/-- Leading and trailing StrWhiteSpace removed. -/
def trimWhiteSpace (cs : List Char) : List Char :=
  ((cs.dropWhile isStrWhiteSpaceChar).reverse.dropWhile isStrWhiteSpaceChar).reverse

/-- SignedInteger of an ExponentPart. -/
def parseExponent (cs : List Char) : Option Int :=
  match cs with
  | [] => none
  | c :: rest =>
    if c = '+' then
      if rest ≠ [] ∧ rest.all Char.isDigit then some (digitsValue rest : Int) else none
    else if c = '-' then
      if rest ≠ [] ∧ rest.all Char.isDigit then some (-(digitsValue rest : Int)) else none
    else if cs.all Char.isDigit then some (digitsValue cs : Int) else none

/-- StrUnsignedDecimalLiteral: `Infinity`, or digits with an optional fraction
and an optional exponent; the value is `digits × 10 ^ (exponent - fraction length)`. -/
def parseUnsignedDecimal (cs : List Char) : Option JNum :=
  if cs = "Infinity".data then some JNum.posInf
  else
    let intPart := cs.takeWhile Char.isDigit
    let afterInt := cs.dropWhile Char.isDigit
    let fracPart := match afterInt with
      | [] => []
      | c :: r => if c = '.' then r.takeWhile Char.isDigit else []
    let afterFrac := match afterInt with
      | [] => []
      | c :: r => if c = '.' then r.dropWhile Char.isDigit else afterInt
    if intPart = [] ∧ fracPart = [] then none
    else
      let digits : Nat := digitsValue (intPart ++ fracPart)
      match afterFrac with
      | [] => some (JNum.fin (mkRat digits (10 ^ fracPart.length)))
      | c :: e =>
        if c = 'e' ∨ c = 'E' then
          (parseExponent e).map (fun x =>
            JNum.fin (mkRat (digits * 10 ^ x.toNat) (10 ^ (fracPart.length + (-x).toNat))))
        else none

/-- NonDecimalIntegerLiteral: `0x`, `0o` or `0b` followed by digits. -/
def parseNonDecimal (cs : List Char) : Option (Option JNum) :=
  match cs with
  | z :: x :: rest =>
    if z = '0' then
      if x = 'x' ∨ x = 'X' then some ((radixValue? 16 rest).map (fun n => JNum.fin (n : ℚ)))
      else if x = 'o' ∨ x = 'O' then some ((radixValue? 8 rest).map (fun n => JNum.fin (n : ℚ)))
      else if x = 'b' ∨ x = 'B' then some ((radixValue? 2 rest).map (fun n => JNum.fin (n : ℚ)))
      else none
    else none
  | _ => none

/-- The integer part of the binary logarithm of a positive integer, by repeated
halving; a fuel of `n` suffices for `n`. -/
def floorLog2 : Nat → Nat → Nat
  | 0, _ => 0
  | fuel + 1, n => if n < 2 then 0 else floorLog2 fuel (n / 2) + 1

/-- The Number value of the positive rational `a / b`: the nearest IEEE 754
double, ties to the even significand. With `e` the binary exponent of `a / b`
(`2 ^ e ≤ a / b < 2 ^ (e + 1)`), the spacing of doubles there is `2 ^ u`,
`u = max (e - 52) (-1074)`; the result is `m × 2 ^ u` for the integer `m` nearest
to `a / (b × 2 ^ u)`, and `+∞` once its binary exponent reaches 1024, that is
once it is at least `2 ^ 1024`. -/
def roundPositive (a b : Nat) : JNum :=
  let e0 : Int := (floorLog2 a a : Int) - (floorLog2 b b : Int)
  let e : Int := if a * 2 ^ (-e0).toNat < b * 2 ^ e0.toNat then e0 - 1 else e0
  let u : Int := if e - 52 < -1074 then -1074 else e - 52
  let n := a * 2 ^ (-u).toNat
  let d := b * 2 ^ u.toNat
  let fl := n / d
  let r := n % d
  let m :=
    if 2 * r < d then fl
    else if d < 2 * r then fl + 1
    else if fl % 2 = 0 then fl
    else fl + 1
  let v := m * 2 ^ u.toNat
  if 1024 ≤ floorLog2 v v then JNum.posInf
  else JNum.fin (mkRat (v : Nat) (2 ^ (-u).toNat))

/-- RoundMVResult: the Number value of a mathematical value, rounded to the
nearest IEEE 754 double. -/
def roundToDouble : JNum → JNum
  | JNum.fin q =>
    if q.num = 0 then JNum.fin 0
    else if q.num < 0 then JNum.neg (roundPositive q.num.natAbs q.den)
    else roundPositive q.num.toNat q.den
  | n => n

/-- The mathematical value of a StringNumericLiteral, before rounding; `NaN`
when the string is not one. -/
def stringNumericValue (s : String) : JNum :=
  let cs := trimWhiteSpace s.data
  match cs with
  | [] => JNum.fin 0
  | c :: rest =>
    if c = '+' then (parseUnsignedDecimal rest).getD JNum.nan
    else if c = '-' then ((parseUnsignedDecimal rest).map JNum.neg).getD JNum.nan
    else
      match parseNonDecimal cs with
      | some r => r.getD JNum.nan
      | none => (parseUnsignedDecimal cs).getD JNum.nan

/-- StringToNumber: the Number a string converts to, the mathematical value of
the literal rounded to the nearest double. -/
def stringToNumber (s : String) : JNum := roundToDouble (stringNumericValue s)

/-- The least `e ≤ fuel` with `den ∣ 10 ^ e`, when there is one. -/
def decimalScale (den : Nat) : Nat → Nat → Option Nat
  | 0, e => if 10 ^ e % den = 0 then some e else none
  | fuel + 1, e => if 10 ^ e % den = 0 then some e else decimalScale den fuel (e + 1)

/-- The number of trailing zero digits of a positive integer. -/
def trailingZeros : Nat → Nat → Nat
  | 0, _ => 0
  | fuel + 1, m => if m ≠ 0 ∧ m % 10 = 0 then trailingZeros fuel (m / 10) + 1 else 0

/-- Number::toString on a positive finite number with digits `s`, `k` of them,
and decimal exponent `n`, so that the number is `s × 10 ^ (n - k)`. -/
def formatDecimal (s : List Char) (n : Int) : String :=
  let k : Int := s.length
  if k ≤ n ∧ n ≤ 21 then String.mk (s ++ List.replicate (n - k).toNat '0')
  else if 0 < n ∧ n ≤ 21 then String.mk (s.take n.toNat ++ '.' :: s.drop n.toNat)
  else if -6 < n ∧ n ≤ 0 then String.mk ('0' :: '.' :: List.replicate (-n).toNat '0' ++ s)
  else
    let e := n - 1
    let sign := if 0 ≤ e then '+' else '-'
    let expDigits := (Nat.repr e.natAbs).data
    match s with
    | [] => ""
    | [d] => String.mk (d :: 'e' :: sign :: expDigits)
    | d :: ds => String.mk (d :: '.' :: ds ++ 'e' :: sign :: expDigits)

/-- Number::toString on a positive finite number. -/
def positiveToString (q : ℚ) : String :=
  let num := q.num.toNat
  if q.den = 1 ∧ num < 10 ^ 21 then Nat.repr num
  else
    let e := (decimalScale q.den q.den 0).getD q.den
    let m := num * 10 ^ e / q.den
    let z := trailingZeros m m
    let s := (Nat.repr (m / 10 ^ z)).data
    formatDecimal s ((s.length : Int) + z - e)

/-- Number::toString. -/
def numberToString : JNum → String
  | JNum.nan => "NaN"
  | JNum.posInf => "Infinity"
  | JNum.negInf => "-Infinity"
  | JNum.fin q =>
    if q = 0 then "0"
    else if q.num < 0 then "-" ++ positiveToString (-q)
    else positiveToString q

mutual

/-- ToString, applied to a value: the string or the TypeError it raises. An
array is joined with commas; a plain object prints as `[object Object]`
unless it shadows `toString` with an own (never callable) property. -/
def toStr : JVal → Except JSError String
  | JVal.undefined => Except.ok "undefined"
  | JVal.null => Except.ok "null"
  | JVal.bool b => Except.ok (if b then "true" else "false")
  | JVal.num n => Except.ok (numberToString n)
  | JVal.str s => Except.ok s
  | JVal.arr xs => joinElems xs
  | JVal.obj fields =>
    if (fields.lookup "toString").isSome then
      Except.error (typeError "Cannot convert object to primitive value")
    else Except.ok "[object Object]"

/-- Array.prototype.join with the comma separator: `undefined` and `null`
elements print as the empty string. -/
def joinElems : List JVal → Except JSError String
  | [] => Except.ok ""
  | x :: rest =>
    match (match x with
      | JVal.undefined => Except.ok ""
      | JVal.null => Except.ok ""
      | y => toStr y) with
    | Except.error e => Except.error e
    | Except.ok a =>
      match rest with
      | [] => Except.ok a
      | _ :: _ =>
        match joinElems rest with
        | Except.error e => Except.error e
        | Except.ok b => Except.ok (a ++ "," ++ b)

end

/-- ToPrimitive: a primitive is itself, an object or array its string. -/
def toPrimitive (v : JVal) : Except JSError JVal :=
  match v with
  | JVal.arr _ => (toStr v).map JVal.str
  | JVal.obj _ => (toStr v).map JVal.str
  | _ => Except.ok v

/-- ToNumber on a primitive. -/
def primitiveToNumber : JVal → JNum
  | JVal.undefined => JNum.nan
  | JVal.null => JNum.fin 0
  | JVal.bool b => if b then JNum.fin 1 else JNum.fin 0
  | JVal.num n => n
  | JVal.str s => stringToNumber s
  | _ => JNum.nan

/-- ToNumber, as in `Number(v)`. -/
def toNumber (v : JVal) : Except JSError JNum :=
  (toPrimitive v).map primitiveToNumber

/-- The binary `+` operator. -/
def jsAdd (a b : JVal) : Except JSError JVal :=
  match toPrimitive a, toPrimitive b with
  | Except.error e, _ => Except.error e
  | _, Except.error e => Except.error e
  | Except.ok pa, Except.ok pb =>
    match pa, pb with
    | JVal.str x, JVal.str y => Except.ok (JVal.str (x ++ y))
    | JVal.str x, _ => (toStr pb).map (fun y => JVal.str (x ++ y))
    | _, JVal.str y => (toStr pa).map (fun x => JVal.str (x ++ y))
    | _, _ => Except.ok (JVal.num (JNum.add (primitiveToNumber pa) (primitiveToNumber pb)))

/-! ## Dates (ECMA-262, Date objects), in a local zone identical to UTC -/

/-- Milliseconds in a day. -/
def msPerDay : Int := 86400000

/-- Day(t): the day number of a time value. -/
def Day (t : Int) : Int := t / msPerDay

/-- TimeWithinDay(t). -/
def TimeWithinDay (t : Int) : Int := t % msPerDay

/-- DaysInYear(y). -/
def DaysInYear (y : Int) : Int :=
  if y % 4 ≠ 0 then 365
  else if y % 100 ≠ 0 then 366
  else if y % 400 ≠ 0 then 365
  else 366

/-- DayFromYear(y): the day number of the first day of year `y`. -/
def DayFromYear (y : Int) : Int :=
  365 * (y - 1970) + (y - 1969) / 4 - (y - 1901) / 100 + (y - 1601) / 400

/-- The largest year `y` with `DayFromYear y ≤ d`, found from the estimate
`1970 + ⌊400 d / 146097⌋`, which is off by at most one. -/
def YearFromDay (d : Int) : Int :=
  let y := 1970 + (d * 400) / 146097
  if DayFromYear (y + 1) ≤ d then y + 1
  else if DayFromYear y ≤ d then y
  else y - 1

/-- YearFromTime(t). -/
def YearFromTime (t : Int) : Int := YearFromDay (Day t)

/-- InLeapYear, as a function of the year: 1 in a leap year, else 0. -/
def leapDay (y : Int) : Int := if DaysInYear y = 366 then 1 else 0

/-- DayWithinYear(t). -/
def DayWithinYear (t : Int) : Int := Day t - DayFromYear (YearFromTime t)

/-- The month (0 to 11) holding day `d` of a year, `leap` being 0 or 1. -/
def monthOfDayInYear (d leap : Int) : Int :=
  if d < 31 then 0
  else if d < 59 + leap then 1
  else if d < 90 + leap then 2
  else if d < 120 + leap then 3
  else if d < 151 + leap then 4
  else if d < 181 + leap then 5
  else if d < 212 + leap then 6
  else if d < 243 + leap then 7
  else if d < 273 + leap then 8
  else if d < 304 + leap then 9
  else if d < 334 + leap then 10
  else 11

/-- The day within the year on which month `m` (0 to 11) starts. -/
def monthStart (m leap : Int) : Int :=
  if m = 0 then 0
  else if m = 1 then 31
  else if m = 2 then 59 + leap
  else if m = 3 then 90 + leap
  else if m = 4 then 120 + leap
  else if m = 5 then 151 + leap
  else if m = 6 then 181 + leap
  else if m = 7 then 212 + leap
  else if m = 8 then 243 + leap
  else if m = 9 then 273 + leap
  else if m = 10 then 304 + leap
  else 334 + leap

/-- MonthFromTime(t). -/
def MonthFromTime (t : Int) : Int :=
  monthOfDayInYear (DayWithinYear t) (leapDay (YearFromTime t))

/-- DateFromTime(t): the day of the month, from 1. -/
def DateFromTime (t : Int) : Int :=
  DayWithinYear t - monthStart (MonthFromTime t) (leapDay (YearFromTime t)) + 1

/-- HourFromTime(t). -/
def HourFromTime (t : Int) : Int := (t / 3600000) % 24

/-- MinFromTime(t). -/
def MinFromTime (t : Int) : Int := (t / 60000) % 60

/-- SecFromTime(t). -/
def SecFromTime (t : Int) : Int := (t / 1000) % 60

/-- MakeTime(hour, min, sec, ms) on integers. -/
def MakeTime (hour min sec ms : Int) : Int :=
  hour * 3600000 + min * 60000 + sec * 1000 + ms

/-- MakeDay(year, month, date) on integers: months outside 0 to 11 carry into the
year, days outside the month carry into the neighbouring months. -/
def MakeDay (year month date : Int) : Int :=
  let ym := year + month / 12
  let mn := month % 12
  DayFromYear ym + monthStart mn (leapDay ym) + date - 1

/-- MakeDate(day, time). -/
def MakeDate (day time : Int) : Int := day * msPerDay + time

/-- TimeClip(time): `none` is the time value NaN. -/
def TimeClip (t : Int) : Option Int :=
  if 8640000000000000 < t.natAbs then none else some t

/-- A Date object: its time value, `none` for an Invalid Date. -/
structure JSDate where
  tv : Option Int
  deriving DecidableEq

/-- The constructor `new Date(year, month, date, hours, minutes, seconds)` on
arguments already converted to numbers: an argument that is not finite gives an
Invalid Date, a year from 0 to 99 means 1900 + year. -/
def newDate (year month date hours minutes seconds : JNum) : JSDate :=
  match year.toInteger?, month.toInteger?, date.toInteger?, hours.toInteger?,
      minutes.toInteger?, seconds.toInteger? with
  | some y, some m, some dt, some h, some mi, some s =>
    let yr := if 0 ≤ y ∧ y ≤ 99 then 1900 + y else y
    { tv := TimeClip (MakeDate (MakeDay yr m dt) (MakeTime h mi s 0)) }
  | _, _, _, _, _, _ => { tv := none }

namespace JSDate

/-- Date.prototype.getFullYear. -/
def getFullYear (d : JSDate) : JNum :=
  match d.tv with
  | some t => JNum.fin (YearFromTime t : ℚ)
  | none => JNum.nan

/-- Date.prototype.getMonth. -/
def getMonth (d : JSDate) : JNum :=
  match d.tv with
  | some t => JNum.fin (MonthFromTime t : ℚ)
  | none => JNum.nan

/-- Date.prototype.getDate. -/
def getDate (d : JSDate) : JNum :=
  match d.tv with
  | some t => JNum.fin (DateFromTime t : ℚ)
  | none => JNum.nan

/-- Date.prototype.getHours. -/
def getHours (d : JSDate) : JNum :=
  match d.tv with
  | some t => JNum.fin (HourFromTime t : ℚ)
  | none => JNum.nan

/-- Date.prototype.getMinutes. -/
def getMinutes (d : JSDate) : JNum :=
  match d.tv with
  | some t => JNum.fin (MinFromTime t : ℚ)
  | none => JNum.nan

/-- Date.prototype.getSeconds. -/
def getSeconds (d : JSDate) : JNum :=
  match d.tv with
  | some t => JNum.fin (SecFromTime t : ℚ)
  | none => JNum.nan

end JSDate

/-- The six local-time fields a Date shows through its getters. -/
structure DateFields where
  year : JNum
  month : JNum
  date : JNum
  hours : JNum
  minutes : JNum
  seconds : JNum
  deriving DecidableEq

/-- The getters of a Date, read together. -/
def JSDate.fields (d : JSDate) : DateFields :=
  { year := d.getFullYear, month := d.getMonth, date := d.getDate,
    hours := d.getHours, minutes := d.getMinutes, seconds := d.getSeconds }

/-! ## Buffers: UTF-8 and Base64 -/

/-- The UTF-8 bytes of one character. -/
def utf8EncodeChar (c : Char) : List Nat :=
  let n := c.toNat
  if n < 128 then [n]
  else if n < 2048 then [192 + n / 64, 128 + n % 64]
  else if n < 65536 then [224 + n / 4096, 128 + n / 64 % 64, 128 + n % 64]
  else [240 + n / 262144, 128 + n / 4096 % 64, 128 + n / 64 % 64, 128 + n % 64]

/-- The UTF-8 bytes of a list of characters. -/
def utf8Bytes : List Char → List Nat
  | [] => []
  | c :: cs => utf8EncodeChar c ++ utf8Bytes cs

/-- The bytes of `Buffer.from(s)`, the UTF-8 encoding of a string. -/
def bufferFrom (s : String) : List Nat := utf8Bytes s.data

/-- The Base64 alphabet `A-Z a-z 0-9 + /`. -/
def base64Char (n : Nat) : Char :=
  if n < 26 then Char.ofNat (65 + n)
  else if n < 52 then Char.ofNat (71 + n)
  else if n < 62 then Char.ofNat (n - 4)
  else if n = 62 then '+'
  else '/'

/-- Base64 with padding, three bytes to four characters. -/
def base64Chars : List Nat → List Char
  | [] => []
  | [a] => [base64Char (a / 4), base64Char (a % 4 * 16), '=', '=']
  | [a, b] => [base64Char (a / 4), base64Char (a % 4 * 16 + b / 16), base64Char (b % 16 * 4), '=']
  | a :: b :: c :: rest =>
    base64Char (a / 4) :: base64Char (a % 4 * 16 + b / 16) :: base64Char (b % 16 * 4 + c / 64)
      :: base64Char (c % 64) :: base64Chars rest

/-- The string of `buffer.toString("base64")`. -/
def toBase64 (bytes : List Nat) : String := String.mk (base64Chars bytes)

/-! ## The Express request, handlers and routes -/

/-- The environment variables the program reads (`process.env`); an unset
variable is `undefined`. -/
structure Env where
  SAFARICOM_CONSUMER_KEY : Option String
  SAFARICOM_CONSUMER_SECRET : Option String
  SAFARICOM_AUTH_URL : Option String
  SAFARICOM_PASSKEY : Option String
  SAFARICOM_SHORTCODE : Option String
  SAFARICOM_STK_ENDPOINT : Option String
  SAFARICOM_REGISTER_PAYBILL : Option String
  SAFARICOM_PAYBILL : Option String

/-- The value of `process.env.NAME`. -/
def envValue (v : Option String) : JVal :=
  match v with
  | some s => JVal.str s
  | none => JVal.undefined

/-- What a `fetch` gives back: a rejected promise, or a response with its HTTP
status and the outcome of `response.json()`. -/
inductive FetchResult where
  | rejected (e : JSError)
  | response (status : Nat) (body : Except JSError JVal)

/-- The property `response.ok`: a status from 200 to 299. -/
def statusOk (status : Nat) : Bool := decide (200 ≤ status ∧ status ≤ 299)

/-- Everything outside the program: configuration, the clock (the time value of
`new Date()`) and the provider's answers. -/
structure World where
  env : Env
  now : Int
  authResponse : FetchResult
  stkResponse : FetchResult
  registerResponse : FetchResult

/-- The provider endpoints the program calls. -/
inductive Endpoint where
  | auth
  | stkPush
  | registerPaybill
  deriving DecidableEq

/-- The normalized payment record `paymentData` of `paybillCallback`. -/
structure PaymentData where
  payment_id : JVal
  date : JSDate
  service_provider : String
  service_provider_ref : JVal
  customer_id : JVal
  customer_name : JVal
  amount : JNum
  service_provided : String
  description : String
  payment_status : String
  hashedPhoneNumber : JVal

/-- What the program writes with `console.log`. -/
inductive LogEntry where
  | text (s : String)
  | status (label : String) (status : Nat)
  | value (label : String) (v : JVal)
  | paymentProcessed (amount phoneNumber mpesacode : JVal) (date : JSDate)
  | paymentFailed (details : JVal)
  | paymentData (p : PaymentData)

/-- A side effect of a handler: a log line or a network call. -/
inductive Event where
  | log (entry : LogEntry)
  | fetch (endpoint : Endpoint) (url : JVal) (method : String) (authorization : String)
      (body : Option JVal)

/-- Whether an event is a network call. -/
def Event.isFetch : Event → Bool
  | Event.fetch _ _ _ _ _ => true
  | Event.log _ => false

/-- A response body passed to `res.json`. -/
inductive ResBody where
  | json (v : JVal)
  | paymentData (p : PaymentData)

/-- The way a handler ends. -/
inductive Outcome where
  | next
  | nextError (e : JSError)
  | respond (status : Nat) (body : ResBody)
  | threw (e : JSError)
  | rejected (e : JSError)

/-- The request object: the parsed body and the fields the middleware attach. -/
structure Req where
  body : JVal
  token : JVal
  timestamp : JVal
  password : JVal
  shortCode : JVal

/-- A request as Express hands it to the first handler of a route. -/
def Req.ofBody (body : JVal) : Req :=
  { body := body, token := JVal.undefined, timestamp := JVal.undefined,
    password := JVal.undefined, shortCode := JVal.undefined }

/-- What running a handler yields. -/
structure HandlerResult where
  events : List Event
  req : Req
  outcome : Outcome

/-- An Express handler. -/
abbrev Handler := World → Req → HandlerResult

/-- The acknowledgment body `{ status: 'success' }`. -/
def ackSuccess : ResBody := ResBody.json (JVal.obj [("status", JVal.str "success")])

/-! ### src/middleware/errorhandling.js -/

/-- The response of `errorHandler`: status `err.status || 500` and the body
`{ success: false, message: err.errors || err.message || "Internal server Error" }`
(no error of this program has an `errors` property). -/
def errorHandler (err : JSError) : Nat × JVal :=
  let status := match err.status with
    | some s => if s = 0 then 500 else s
    | none => 500
  let message := if err.message = "" then "Internal server Error" else err.message
  (status, JVal.obj [("success", JVal.bool false), ("message", JVal.str message)])

/-! ### src/middleware/mpesaMiddleWare.js -/

/-- The middleware `checkAmmountPhone`. -/
def checkAmmountPhone (_w : World) (req : Req) : HandlerResult :=
  if req.body.isNullish then
    { events := [], req := req,
      outcome := Outcome.threw (typeError "Cannot destructure property of req.body") }
  else
    let ammount := req.body.get "ammount"
    let phone := req.body.get "phone"
    if !ammount.truthy || !phone.truthy then
      let error : JSError :=
        { name := "Error", message := "Amount and phone number are required.", status := some 400 }
      { events := [], req := req, outcome := Outcome.nextError error }
    else
      { events := [], req := req, outcome := Outcome.next }

/-- A template literal slot holding a configuration value, `${v}`. -/
def templateEnv (v : Option String) : String :=
  match v with
  | some s => s
  | none => "undefined"

/-- The middleware `generateToken`. -/
def generateToken (w : World) (req : Req) : HandlerResult :=
  let auth := toBase64 (bufferFrom
    (templateEnv w.env.SAFARICOM_CONSUMER_KEY ++ ":" ++ templateEnv w.env.SAFARICOM_CONSUMER_SECRET))
  let events := [Event.log (LogEntry.text "GETTING AUTH"),
    Event.fetch Endpoint.auth (envValue w.env.SAFARICOM_AUTH_URL) "GET" ("Basic " ++ auth) none]
  let error : JSError :=
    { name := "Error", message := "Error generating auth token-->", status := some 400 }
  match w.authResponse with
  | FetchResult.rejected _ => { events := events, req := req, outcome := Outcome.nextError error }
  | FetchResult.response status body =>
    if !statusOk status then { events := events, req := req, outcome := Outcome.nextError error }
    else
      match body with
      | Except.error _ => { events := events, req := req, outcome := Outcome.nextError error }
      | Except.ok data =>
        match getProp data "access_token" with
        | Except.error _ => { events := events, req := req, outcome := Outcome.nextError error }
        | Except.ok token =>
          { events := events, req := { req with token := token }, outcome := Outcome.next }

/-- The decimal string of an integer, `String(n)` for an integer below `10 ^ 21`
in magnitude. -/
def intToString (n : Int) : String := numberToString (JNum.fin (n : ℚ))

/-- The timestamp string `generateTimestamp` builds from the time value `now`:
`year + month + date + hour + minute + seconds`, the year a number and the other
five padded strings. -/
def timestampOf (now : Int) : String :=
  let year := YearFromTime now
  let month := padStart (intToString (MonthFromTime now + 1)) 2 '0'
  let date := padStart (intToString (DateFromTime now)) 2 '0'
  let hour := padStart (intToString (HourFromTime now)) 2 '0'
  let minute := padStart (intToString (MinFromTime now)) 2 '0'
  let seconds := padStart (intToString (SecFromTime now)) 2 '0'
  intToString year ++ month ++ date ++ hour ++ minute ++ seconds

/-- The middleware `generateTimestamp`. -/
def generateTimestamp (w : World) (req : Req) : HandlerResult :=
  let now := w.now
  let timestamp := timestampOf now
  { events := [], req := { req with timestamp := JVal.str timestamp }, outcome := Outcome.next }

/-- The middleware `generatePassword`. `Buffer.from` raises a TypeError on a
value that is not a string. -/
def generatePassword (w : World) (req : Req) : HandlerResult :=
  let shortCode := envValue w.env.SAFARICOM_SHORTCODE
  let passKey := envValue w.env.SAFARICOM_PASSKEY
  match (jsAdd shortCode passKey).bind (fun sp => jsAdd sp req.timestamp) with
  | Except.error e => { events := [], req := req, outcome := Outcome.threw e }
  | Except.ok (JVal.str dataToEncode) =>
    let password := toBase64 (bufferFrom dataToEncode)
    { events := [],
      req := { req with password := JVal.str password, shortCode := shortCode },
      outcome := Outcome.next }
  | Except.ok _ =>
    { events := [], req := req,
      outcome := Outcome.threw (typeError "The first argument must be of type string") }

/-! ### src/controllers/darajaApis.js -/

/-- The constant `CALLBACKENDPOINT`. -/
def CALLBACKENDPOINT : String := "https://c851-196-216-70-170.ngrok-free.app"

/-- The constant `STKCALLBACK`. -/
def STKCALLBACK : String := CALLBACKENDPOINT ++ "/grid/v1/safpayment/callback"

/-- The constant `C2BPAYBILLCALBACK`. -/
def C2BPAYBILLCALBACK : String := CALLBACKENDPOINT ++ "/grid/v1/safpayment/paybillcallback"

/-- The controller `generateStkPush`. The destructuring of `req.body` stands
before the `try`; the template literal of the Authorization header is evaluated
before the request is sent. -/
def generateStkPush (w : World) (req : Req) : HandlerResult :=
  let saf_stk := envValue w.env.SAFARICOM_STK_ENDPOINT
  if req.body.isNullish then
    { events := [], req := req,
      outcome := Outcome.rejected (typeError "Cannot destructure property of req.body") }
  else
    let ammount := req.body.get "ammount"
    let phone := req.body.get "phone"
    let payload := JVal.obj [
      ("BusinessShortCode", req.shortCode),
      ("Password", req.password),
      ("Timestamp", req.timestamp),
      ("TransactionType", JVal.str "CustomerPayBillOnline"),
      ("Amount", ammount),
      ("PartyA", phone),
      ("PartyB", req.shortCode),
      ("PhoneNumber", phone),
      ("CallBackURL", JVal.str STKCALLBACK),
      ("AccountReference", JVal.str "Shasa Test"),
      ("TransactionDesc", JVal.str "Payment for goods n stuff")]
    match toStr req.token with
    | Except.error e => { events := [], req := req, outcome := Outcome.nextError e }
    | Except.ok token =>
      let sent := [Event.fetch Endpoint.stkPush saf_stk "POST" ("Bearer " ++ token) (some payload)]
      match w.stkResponse with
      | FetchResult.rejected e => { events := sent, req := req, outcome := Outcome.nextError e }
      | FetchResult.response status body =>
        if !statusOk status then
          let logged := sent ++ [Event.log (LogEntry.status "ERROR" status)]
          match body with
          | Except.error e => { events := logged, req := req, outcome := Outcome.nextError e }
          | Except.ok faildata =>
            { events := logged ++ [Event.log (LogEntry.value "FAILURE REASON" faildata)],
              req := req,
              outcome := Outcome.nextError (newError "Could not send stk push request") }
        else
          match body with
          | Except.error e => { events := sent, req := req, outcome := Outcome.nextError e }
          | Except.ok data =>
            { events := sent, req := req,
              outcome := Outcome.respond 201 (ResBody.json (JVal.obj [
                ("status", JVal.str "Request sent"), ("details", data)])) }

/-- The search `items.find(item => item.Name === name)` over the elements of an
array: the first element whose `Name` is `name`, `undefined` when there is none,
a TypeError when an element met on the way is `undefined` or `null`. -/
def findByName (name : String) : List JVal → Except JSError JVal
  | [] => Except.ok JVal.undefined
  | item :: rest =>
    match getProp item "Name" with
    | Except.error e => Except.error e
    | Except.ok n => if n.strictEqStr name then Except.ok item else findByName name rest

/-- The expression `items.find(item => item.Name === name)?.Value`: a TypeError
when `items` is not an array. -/
def findValue (items : JVal) (name : String) : Except JSError JVal :=
  match items with
  | JVal.arr xs => (findByName name xs).map (fun found => found.opt "Value")
  | _ => Except.error (typeError "items.find is not a function")

/-- The fixed-offset decoding both callback handlers apply to a timestamp
string: six `substring` calls, the month reduced by one, then the Date
constructor. -/
def decodeTimestamp (timestamp : String) : JSDate :=
  let year := substring timestamp 0 4
  let month := JNum.sub (stringToNumber (substring timestamp 4 6)) (JNum.fin 1)
  let day := substring timestamp 6 8
  let hours := substring timestamp 8 10
  let minutes := substring timestamp 10 12
  let seconds := substring timestamp 12 14
  newDate (stringToNumber year) month (stringToNumber day) (stringToNumber hours)
    (stringToNumber minutes) (stringToNumber seconds)

/-- The success branch of `stkCallBack`: the record it logs, or the exception
it raises. -/
def stkExtract (items : JVal) : Except JSError LogEntry :=
  match findValue items "Amount" with
  | Except.error e => Except.error e
  | Except.ok amount =>
    match findValue items "PhoneNumber" with
    | Except.error e => Except.error e
    | Except.ok phoneNumber =>
      match findValue items "MpesaReceiptNumber" with
      | Except.error e => Except.error e
      | Except.ok mpesacode =>
        match (findValue items "TransactionDate").bind toStr with
        | Except.error e => Except.error e
        | Except.ok timestamp =>
          Except.ok (LogEntry.paymentProcessed amount phoneNumber mpesacode
            (decodeTimestamp timestamp))

/-- The controller `stkCallBack`. -/
def stkCallBack (_w : World) (req : Req) : HandlerResult :=
  let callbackData := req.body
  let stkCallback := (callbackData.opt "Body").opt "stkCallback"
  if (stkCallback.opt "ResultDesc").strictEqStr "The service request is processed successfully."
      && (stkCallback.opt "ResultCode").strictEqZero then
    let items := (stkCallback.opt "CallbackMetadata").opt "Item"
    match stkExtract items with
    | Except.error e => { events := [], req := req, outcome := Outcome.nextError e }
    | Except.ok entry =>
      { events := [Event.log entry], req := req, outcome := Outcome.respond 200 ackSuccess }
  else
    { events := [Event.log (LogEntry.paymentFailed stkCallback)], req := req,
      outcome := Outcome.respond 200 ackSuccess }

/-- The controller `registerPaybillUrl`. The destructuring of `req.body` and the
check of `confirmation_url` stand before the `try`: what they raise rejects the
handler's promise and is not passed to `next`. -/
def registerPaybillUrl (w : World) (req : Req) : HandlerResult :=
  if req.body.isNullish then
    { events := [], req := req,
      outcome := Outcome.rejected (typeError "Cannot destructure property of req.body") }
  else
    let confirmation_url := req.body.get "confirmation_url"
    if !confirmation_url.truthy then
      { events := [], req := req,
        outcome := Outcome.rejected (newError "No url provided in register paybill endpoint") }
    else
      let safRegisterUrl := envValue w.env.SAFARICOM_REGISTER_PAYBILL
      let paybillNumber := primitiveToNumber (envValue w.env.SAFARICOM_PAYBILL)
      let requestBody := JVal.obj [
        ("ShortCode", JVal.num paybillNumber),
        ("ResponseType", JVal.str "Completed"),
        ("ConfirmationURL", confirmation_url),
        ("ValidationURL", confirmation_url)]
      match toStr req.token with
      | Except.error e => { events := [], req := req, outcome := Outcome.nextError e }
      | Except.ok token =>
        let sent := [Event.fetch Endpoint.registerPaybill safRegisterUrl "POST"
          ("Bearer " ++ token) (some requestBody)]
        match w.registerResponse with
        | FetchResult.rejected e => { events := sent, req := req, outcome := Outcome.nextError e }
        | FetchResult.response _ body =>
          match body with
          | Except.error e => { events := sent, req := req, outcome := Outcome.nextError e }
          | Except.ok data =>
            match getProp data "ResponseDescription" with
            | Except.error e => { events := sent, req := req, outcome := Outcome.nextError e }
            | Except.ok description =>
              if description.strictEqStr "Success" then
                { events := sent, req := req,
                  outcome := Outcome.respond 200 (ResBody.json (JVal.obj [
                    ("status", JVal.str "success"), ("details", data)])) }
              else
                { events := sent ++ [Event.log (LogEntry.value "Failed:" data)], req := req,
                  outcome := Outcome.respond 400 (ResBody.json (JVal.obj [
                    ("status", JVal.str "error"), ("details", data)])) }

/-- The expression `v?.replace(/\D/g, '')`: `undefined` on a nullish value, the
digits of a string, a TypeError on anything else (no `replace` to call). -/
def replaceNonDigits (v : JVal) : Except JSError JVal :=
  match v with
  | JVal.undefined => Except.ok JVal.undefined
  | JVal.null => Except.ok JVal.undefined
  | JVal.str s => Except.ok (JVal.str (removeNonDigits s))
  | _ => Except.error (typeError "replace is not a function")

/-- The body of the `try` block of `paybillCallback`: the record `paymentData`,
or the exception raised on the way. -/
def paybillRecord (callbackData : JVal) : Except JSError PaymentData :=
  match callbackData.opt "TransTime" with
  | JVal.str timestamp =>
    let dateObject := decodeTimestamp timestamp
    match replaceNonDigits (callbackData.opt "BillRefNumber") with
    | Except.error e => Except.error e
    | Except.ok customer_id =>
      match (jsAdd (callbackData.opt "FirstName") (JVal.str " ")).bind
          (fun left => jsAdd left (callbackData.opt "LastName")) with
      | Except.error e => Except.error e
      | Except.ok customer_name =>
        match toNumber (callbackData.opt "TransAmount") with
        | Except.error e => Except.error e
        | Except.ok amount =>
          Except.ok {
            payment_id := callbackData.opt "TransID",
            date := dateObject,
            service_provider := "SAFARICOMC2B",
            service_provider_ref := callbackData.opt "TransID",
            customer_id := customer_id,
            customer_name := customer_name,
            amount := amount,
            service_provided := "GRIDPAYMENT",
            description := "Customer payment for grid bundles",
            payment_status := "success",
            hashedPhoneNumber := callbackData.opt "MSISDN" }
  | _ => Except.error (typeError "timestamp.substring is not a function")

/-- The controller `paybillCallback`. -/
def paybillCallback (_w : World) (req : Req) : HandlerResult :=
  let callbackData := req.body
  match paybillRecord callbackData with
  | Except.error e => { events := [], req := req, outcome := Outcome.nextError e }
  | Except.ok paymentData =>
    { events := [Event.log (LogEntry.paymentData paymentData)], req := req,
      outcome := Outcome.respond 200 (ResBody.paymentData paymentData) }

/-! ### src/routes/mpesaRoutes.js -/

/-- A run of a route: the handlers entered, in order, the side effects, the
request object at the end and the way the last handler entered ended. -/
structure Run where
  ran : List String
  events : List Event
  req : Req
  final : Outcome

/-- The handlers of a route run in order: `next()` enters the following handler,
anything else ends the run. -/
def runRoute : List (String × Handler) → World → Req → Run
  | [], _, req => { ran := [], events := [], req := req, final := Outcome.next }
  | (name, handler) :: rest, w, req =>
    let result := handler w req
    match result.outcome with
    | Outcome.next =>
      let tail := runRoute rest w result.req
      { ran := name :: tail.ran, events := result.events ++ tail.events, req := tail.req,
        final := tail.final }
    | outcome => { ran := [name], events := result.events, req := result.req, final := outcome }

/-- The network calls of a run. -/
def Run.fetches (r : Run) : List Event := r.events.filter Event.isFetch

/-- The route `POST /safpayment/stkpush`. -/
def stkpushRoute : List (String × Handler) :=
  [("checkAmmountPhone", checkAmmountPhone), ("generateToken", generateToken),
   ("generateTimestamp", generateTimestamp), ("generatePassword", generatePassword),
   ("generateStkPush", generateStkPush)]

/-- The route `POST /safpayment/callback`. -/
def callbackRoute : List (String × Handler) := [("stkCallBack", stkCallBack)]

/-- The route `POST /safpayment/paybillcallback`. -/
def paybillcallbackRoute : List (String × Handler) := [("paybillCallback", paybillCallback)]

/-- The route `POST /safpayment/registerpaybill`. -/
def registerpaybillRoute : List (String × Handler) :=
  [("generateToken", generateToken), ("registerPaybillUrl", registerPaybillUrl)]

/-! ## Definitions used to state the properties -/

/-- The two decimal digits of a number below 100, tens first. -/
def twoDigits (n : Nat) : List Char := [Nat.digitChar (n / 10), Nat.digitChar (n % 10)]

/-- The four decimal digits of a number below 10000, thousands first. -/
def fourDigits (n : Nat) : List Char :=
  [Nat.digitChar (n / 1000), Nat.digitChar (n / 100 % 10), Nat.digitChar (n / 10 % 10),
   Nat.digitChar (n % 10)]

/-- The 14 characters `YYYYMMDDHHMMSS` of a year, a month counted from 1, a day,
an hour, a minute and a second. -/
def compactTimestamp (year month day hour minute second : Nat) : String :=
  String.mk (fourDigits year ++ twoDigits month ++ twoDigits day ++ twoDigits hour
    ++ twoDigits minute ++ twoDigits second)

/-- The number of days of month `m` (0 to 11), `leap` being 0 or 1. -/
def DaysInMonth (m leap : Int) : Int :=
  if m = 1 then 28 + leap
  else if m = 3 ∨ m = 5 ∨ m = 8 ∨ m = 10 then 30
  else 31

/-- The Date whose time value is `t`. -/
def dateOfTime (t : Int) : JSDate := { tv := some t }

/-- The six fields as integers. -/
def fieldsOf (year month date hours minutes seconds : Int) : DateFields :=
  { year := JNum.fin (year : ℚ), month := JNum.fin (month : ℚ), date := JNum.fin (date : ℚ),
    hours := JNum.fin (hours : ℚ), minutes := JNum.fin (minutes : ℚ),
    seconds := JNum.fin (seconds : ℚ) }

/-- The lookup of the specification: the `Value` of the first item whose `Name`
is `name`, `undefined` when no item has that name. -/
def firstValue (items : List JVal) (name : String) : JVal :=
  match items.find? (fun item => (item.get "Name").strictEqStr name) with
  | some item => item.get "Value"
  | none => JVal.undefined

/-- Whether a body is flagged as a success: `ResultDesc` is exactly the success
sentence and `ResultCode` is the number 0. -/
def successFlagged (stkCallback : JVal) : Prop :=
  stkCallback.opt "ResultDesc" = JVal.str "The service request is processed successfully."
    ∧ stkCallback.opt "ResultCode" = JVal.num (JNum.fin 0)

/-- An environment with every variable set. -/
def sampleEnv : Env :=
  { SAFARICOM_CONSUMER_KEY := some "key",
    SAFARICOM_CONSUMER_SECRET := some "secret",
    SAFARICOM_AUTH_URL := some "https://sandbox.safaricom.co.ke/oauth/v1/generate",
    SAFARICOM_PASSKEY := some "passkey",
    SAFARICOM_SHORTCODE := some "174379",
    SAFARICOM_STK_ENDPOINT := some "https://sandbox.safaricom.co.ke/mpesa/stkpush/v1/processrequest",
    SAFARICOM_REGISTER_PAYBILL := some "https://sandbox.safaricom.co.ke/mpesa/c2b/v1/registerurl",
    SAFARICOM_PAYBILL := some "600000" }

/-- A provider answer: status 200 with the given JSON body. -/
def okResponse (body : JVal) : FetchResult := FetchResult.response 200 (Except.ok body)

/-- A world whose clock shows `now` and whose provider answers every call with
status 200: a token `tok` to the auth call, an empty object to the others. -/
def sampleWorld (now : Int) : World :=
  { env := sampleEnv, now := now,
    authResponse := okResponse (JVal.obj [("access_token", JVal.str "tok")]),
    stkResponse := okResponse (JVal.obj []),
    registerResponse := okResponse (JVal.obj []) }

/-- The password `generatePassword` attaches to the request `req` in the world
`w`, once the short code, the pass key and the timestamp are the given strings. -/
def passwordOf (w : World) (req : Req) (shortCode passKey timestamp : String) : JVal :=
  (generatePassword
    { w with env := { w.env with
        SAFARICOM_SHORTCODE := some shortCode, SAFARICOM_PASSKEY := some passKey } }
    { req with timestamp := JVal.str timestamp }).req.password

/-- The error `checkAmmountPhone` forwards: its message and its status 400. -/
def amountPhoneRequired : JSError :=
  { name := "Error", message := "Amount and phone number are required.", status := some 400 }

/-- The error `generateToken` forwards: its message and its status 400. -/
def tokenError : JSError :=
  { name := "Error", message := "Error generating auth token-->", status := some 400 }

/-- The metadata items of the specification's push-result example, out of order. -/
def exampleItems : List JVal :=
  [JVal.obj [("Name", JVal.str "TransactionDate"), ("Value", JVal.int 20240115103000)],
   JVal.obj [("Name", JVal.str "MpesaReceiptNumber"), ("Value", JVal.str "ABC123")],
   JVal.obj [("Name", JVal.str "Amount"), ("Value", JVal.int 500)],
   JVal.obj [("Name", JVal.str "PhoneNumber"), ("Value", JVal.int 254712345678)]]

/-- A push-result callback body with the given result code, result description
and, when given, metadata. -/
def stkBody (resultCode resultDesc : JVal) (metadata : Option JVal) : JVal :=
  JVal.obj [("Body", JVal.obj [("stkCallback", JVal.obj
    (("ResultCode", resultCode) :: ("ResultDesc", resultDesc) ::
      (match metadata with
        | some m => [("CallbackMetadata", m)]
        | none => [])))])]

/-- The sentence that flags a success. -/
def successSentence : JVal := JVal.str "The service request is processed successfully."

/-- The push-result example of the specification. -/
def exampleStkBody : JVal :=
  stkBody (JVal.int 0) successSentence (some (JVal.obj [("Item", JVal.arr exampleItems)]))

/-- The direct-payment example of the specification. -/
def examplePaybillBody : JVal :=
  JVal.obj [("TransID", JVal.str "XYZ"), ("TransTime", JVal.str "20240115103000"),
    ("BillRefNumber", JVal.str "ACCT-00123"), ("FirstName", JVal.str "Jane"),
    ("LastName", JVal.str "Doe"), ("TransAmount", JVal.str "750"), ("MSISDN", JVal.str "hash1")]

/-- The payload the specification describes for a push request: the password is
the Base64 string of short code, pass key and timestamp, the short code stands
as `BusinessShortCode` and `PartyB`, the phone as `PartyA` and `PhoneNumber`,
the amount as `Amount`. -/
def stkPayload (shortCode passKey timestamp : String) (ammount phone : JVal) : JVal :=
  JVal.obj [
    ("BusinessShortCode", JVal.str shortCode),
    ("Password", JVal.str (toBase64 (bufferFrom (shortCode ++ passKey ++ timestamp)))),
    ("Timestamp", JVal.str timestamp),
    ("TransactionType", JVal.str "CustomerPayBillOnline"),
    ("Amount", ammount),
    ("PartyA", phone),
    ("PartyB", JVal.str shortCode),
    ("PhoneNumber", phone),
    ("CallBackURL", JVal.str STKCALLBACK),
    ("AccountReference", JVal.str "Shasa Test"),
    ("TransactionDesc", JVal.str "Payment for goods n stuff")]

/-- The payload object `generateStkPush` builds from a request. -/
def payloadOf (req : Req) : JVal :=
  JVal.obj [
    ("BusinessShortCode", req.shortCode),
    ("Password", req.password),
    ("Timestamp", req.timestamp),
    ("TransactionType", JVal.str "CustomerPayBillOnline"),
    ("Amount", req.body.get "ammount"),
    ("PartyA", req.body.get "phone"),
    ("PartyB", req.shortCode),
    ("PhoneNumber", req.body.get "phone"),
    ("CallBackURL", JVal.str STKCALLBACK),
    ("AccountReference", JVal.str "Shasa Test"),
    ("TransactionDesc", JVal.str "Payment for goods n stuff")]

/-! ## Properties -/

/-! ### The calendar -/

theorem DayFromYear_succ (y : Int) : DayFromYear (y + 1) = DayFromYear y + DaysInYear y := by
  unfold DayFromYear DaysInYear
  split_ifs <;> omega

theorem DayFromYear_mono {a b : Int} (h : a ≤ b) : DayFromYear a ≤ DayFromYear b := by
  unfold DayFromYear; omega

theorem YearFromDay_spec (d : Int) :
    DayFromYear (YearFromDay d) ≤ d ∧ d < DayFromYear (YearFromDay d + 1) := by
  unfold YearFromDay
  simp only
  split_ifs with h1 h2
  · refine ⟨h1, ?_⟩
    unfold DayFromYear at *
    omega
  · exact ⟨h2, by omega⟩
  · rw [sub_add_cancel]
    refine ⟨?_, by omega⟩
    unfold DayFromYear at *
    omega

theorem YearFromDay_unique (d y : Int) (h1 : DayFromYear y ≤ d) (h2 : d < DayFromYear (y + 1)) :
    YearFromDay d = y := by
  have ⟨h3, h4⟩ := YearFromDay_spec d
  by_contra hne
  rcases lt_or_gt_of_ne hne with h | h
  · have := DayFromYear_mono (show YearFromDay d + 1 ≤ y by omega); omega
  · have := DayFromYear_mono (show y + 1 ≤ YearFromDay d by omega); omega

theorem leapDay_eq (y : Int) : leapDay y = DaysInYear y - 365 := by
  unfold leapDay DaysInYear; split_ifs <;> omega

theorem DayWithinYear_bounds (t : Int) :
    0 ≤ DayWithinYear t ∧ DayWithinYear t < 365 + leapDay (YearFromTime t) := by
  have h := YearFromDay_spec (Day t)
  rw [DayFromYear_succ] at h
  rw [leapDay_eq]
  unfold DayWithinYear YearFromTime
  omega

theorem leapDay_cases (y : Int) : leapDay y = 0 ∨ leapDay y = 1 := by
  unfold leapDay; split_ifs <;> simp

theorem ite_bounds {c : Prop} [Decidable c] {a b lo hi : Int} (ha : lo ≤ a ∧ a ≤ hi)
    (hb : lo ≤ b ∧ b ≤ hi) : lo ≤ (if c then a else b) ∧ (if c then a else b) ≤ hi := by
  split <;> assumption

theorem monthOfDayInYear_bounds (d l : Int) :
    0 ≤ monthOfDayInYear d l ∧ monthOfDayInYear d l ≤ 11 := by
  unfold monthOfDayInYear
  repeat' apply ite_bounds
  all_goals decide

theorem monthOfDayInYear_spec (d l : Int) (hl : l = 0 ∨ l = 1) (h0 : 0 ≤ d) (h1 : d < 365 + l) :
    monthStart (monthOfDayInYear d l) l ≤ d ∧ d < monthStart (monthOfDayInYear d l) l + 31 := by
  unfold monthOfDayInYear
  by_cases c0 : d < 31
  · rw [if_pos c0]; simp only [monthStart]; norm_num; omega
  rw [if_neg c0]
  by_cases c1 : d < 59 + l
  · rw [if_pos c1]; simp only [monthStart]; norm_num; omega
  rw [if_neg c1]
  by_cases c2 : d < 90 + l
  · rw [if_pos c2]; simp only [monthStart]; norm_num; omega
  rw [if_neg c2]
  by_cases c3 : d < 120 + l
  · rw [if_pos c3]; simp only [monthStart]; norm_num; omega
  rw [if_neg c3]
  by_cases c4 : d < 151 + l
  · rw [if_pos c4]; simp only [monthStart]; norm_num; omega
  rw [if_neg c4]
  by_cases c5 : d < 181 + l
  · rw [if_pos c5]; simp only [monthStart]; norm_num; omega
  rw [if_neg c5]
  by_cases c6 : d < 212 + l
  · rw [if_pos c6]; simp only [monthStart]; norm_num; omega
  rw [if_neg c6]
  by_cases c7 : d < 243 + l
  · rw [if_pos c7]; simp only [monthStart]; norm_num; omega
  rw [if_neg c7]
  by_cases c8 : d < 273 + l
  · rw [if_pos c8]; simp only [monthStart]; norm_num; omega
  rw [if_neg c8]
  by_cases c9 : d < 304 + l
  · rw [if_pos c9]; simp only [monthStart]; norm_num; omega
  rw [if_neg c9]
  by_cases c10 : d < 334 + l
  · rw [if_pos c10]; simp only [monthStart]; norm_num; omega
  rw [if_neg c10]
  simp only [monthStart]; norm_num; omega

theorem MonthFromTime_bounds (t : Int) : 0 ≤ MonthFromTime t ∧ MonthFromTime t ≤ 11 :=
  monthOfDayInYear_bounds _ _

theorem DateFromTime_bounds (t : Int) : 1 ≤ DateFromTime t ∧ DateFromTime t ≤ 31 := by
  have h := DayWithinYear_bounds t
  have hs := monthOfDayInYear_spec (DayWithinYear t) (leapDay (YearFromTime t))
    (leapDay_cases _) h.1 h.2
  unfold DateFromTime MonthFromTime
  omega

theorem HourFromTime_bounds (t : Int) : 0 ≤ HourFromTime t ∧ HourFromTime t ≤ 23 := by
  unfold HourFromTime; omega

theorem MinFromTime_bounds (t : Int) : 0 ≤ MinFromTime t ∧ MinFromTime t ≤ 59 := by
  unfold MinFromTime; omega

theorem SecFromTime_bounds (t : Int) : 0 ≤ SecFromTime t ∧ SecFromTime t ≤ 59 := by
  unfold SecFromTime; omega

/-- Rebuilding the time value from the fields of `t` gives `t` cut to the second. -/
theorem MakeDate_fields (t : Int) :
    MakeDate (MakeDay (YearFromTime t) (MonthFromTime t) (DateFromTime t))
      (MakeTime (HourFromTime t) (MinFromTime t) (SecFromTime t) 0) = t - t % 1000 := by
  have hm := MonthFromTime_bounds t
  have h1 : MonthFromTime t / 12 = 0 := by omega
  have h2 : MonthFromTime t % 12 = MonthFromTime t := by omega
  unfold MakeDate MakeDay MakeTime
  simp only [h1, h2, add_zero]
  unfold DateFromTime DayWithinYear Day HourFromTime MinFromTime SecFromTime msPerDay
  omega

/-! ### Digits and decimal strings -/

theorem isDigit_iff (c : Char) : c.isDigit = true ↔ 48 ≤ c.toNat ∧ c.toNat ≤ 57 := by
  unfold Char.isDigit Char.toNat
  simp only [Bool.and_eq_true, decide_eq_true_eq, ge_iff_le, UInt32.le_def]
  rfl

theorem digitChar_isDigit (n : Nat) (h : n < 10) : (Nat.digitChar n).isDigit = true := by
  interval_cases n <;> rfl

theorem digitChar_toNat (n : Nat) (h : n < 10) : (Nat.digitChar n).toNat - 48 = n := by
  interval_cases n <;> rfl

theorem repr_lt_ten (n : Nat) (h : n < 10) : Nat.repr n = String.mk [Nat.digitChar n] := by
  interval_cases n <;> rfl

theorem repr_two (n : Nat) (h1 : 10 ≤ n) (h2 : n < 100) : Nat.repr n = String.mk (twoDigits n) := by
  interval_cases n <;> rfl

theorem repr_four (n : Nat) (h1 : 1000 ≤ n) (h2 : n < 10000) :
    Nat.repr n = String.mk (fourDigits n) := by
  obtain ⟨m, rfl⟩ : ∃ m, n = m + 1000 := ⟨n - 1000, by omega⟩
  have e1 : ¬ (m + 1000) / 10 = 0 := by omega
  have e2 : ¬ (m + 1000) / 10 / 10 = 0 := by omega
  have e3 : ¬ (m + 1000) / 10 / 10 / 10 = 0 := by omega
  have e4 : (m + 1000) / 10 / 10 / 10 / 10 = 0 := by omega
  have f1 : (m + 1000) / 10 / 10 % 10 = (m + 1000) / 100 % 10 := by omega
  have f2 : (m + 1000) / 10 / 10 / 10 % 10 = (m + 1000) / 1000 := by omega
  have key : Nat.toDigits 10 (m + 1000) = fourDigits (m + 1000) := by
    unfold Nat.toDigits
    rw [Nat.toDigitsCore]
    simp only [e1, if_false]
    rw [Nat.toDigitsCore]
    simp only [e2, if_false]
    rw [Nat.toDigitsCore]
    simp only [e3, if_false]
    rw [Nat.toDigitsCore]
    simp only [e4, if_true, fourDigits, f1, f2]
  simp only [Nat.repr, key, List.asString]

theorem intToString_nat (n : Nat) (h : n < 10 ^ 21) : intToString (n : Int) = Nat.repr n := by
  unfold intToString numberToString
  by_cases h0 : n = 0
  · subst h0; rfl
  · have hq : ((n : Int) : ℚ) ≠ 0 := by exact_mod_cast h0
    have hneg : ¬ ((n : Int) < 0) := by omega
    simp only [hq, if_false, hneg, positiveToString, Rat.intCast_den, Rat.intCast_num,
      Int.toNat_ofNat, true_and, h, if_true]

theorem padStart_two (n : Nat) (h : n < 100) :
    padStart (intToString (n : Int)) 2 '0' = String.mk (twoDigits n) := by
  rw [intToString_nat n (by omega)]
  have hz : Nat.digitChar 0 = '0' := rfl
  by_cases h10 : n < 10
  · rw [repr_lt_ten n h10]
    have : n / 10 = 0 := by omega
    have h2 : n % 10 = n := by omega
    simp [padStart, twoDigits, this, h2, String.length, hz]
  · rw [repr_two n (by omega) h]
    simp [padStart, twoDigits, String.length]

theorem intToString_four (n : Nat) (h1 : 1000 ≤ n) (h2 : n < 10000) :
    intToString (n : Int) = String.mk (fourDigits n) := by
  rw [intToString_nat n (by omega), repr_four n h1 h2]

theorem not_ws_of_isDigit (c : Char) (h : c.isDigit = true) : isStrWhiteSpaceChar c = false := by
  rw [isDigit_iff] at h
  unfold isStrWhiteSpaceChar
  simp only [decide_eq_false_iff_not]
  omega

theorem trimWhiteSpace_digits (cs : List Char) (h : ∀ c ∈ cs, c.isDigit = true) :
    trimWhiteSpace cs = cs := by
  unfold trimWhiteSpace
  have h1 : cs.dropWhile isStrWhiteSpaceChar = cs := by
    cases cs with
    | nil => rfl
    | cons c r =>
      have := not_ws_of_isDigit c (h c (List.mem_cons_self _ _))
      simp [List.dropWhile, this]
  rw [h1]
  have h2 : cs.reverse.dropWhile isStrWhiteSpaceChar = cs.reverse := by
    cases hr : cs.reverse with
    | nil => rfl
    | cons c r =>
      have hc : c ∈ cs := by
        have : c ∈ cs.reverse := by rw [hr]; exact List.mem_cons_self _ _
        exact List.mem_reverse.mp this
      have := not_ws_of_isDigit c (h c hc)
      simp [List.dropWhile, this]
  rw [h2, List.reverse_reverse]

theorem takeWhile_digits (cs : List Char) (h : ∀ c ∈ cs, c.isDigit = true) :
    cs.takeWhile Char.isDigit = cs := by
  induction cs with
  | nil => rfl
  | cons c r ih =>
    have hc := h c (List.mem_cons_self _ _)
    simp only [List.takeWhile, hc]
    rw [ih (fun x hx => h x (List.mem_cons_of_mem _ hx))]

theorem dropWhile_digits (cs : List Char) (h : ∀ c ∈ cs, c.isDigit = true) :
    cs.dropWhile Char.isDigit = [] := by
  induction cs with
  | nil => rfl
  | cons c r ih =>
    have hc := h c (List.mem_cons_self _ _)
    simp only [List.dropWhile, hc]
    exact ih (fun x hx => h x (List.mem_cons_of_mem _ hx))

theorem parseUnsignedDecimal_digits (cs : List Char) (hne : cs ≠ [])
    (h : ∀ c ∈ cs, c.isDigit = true) :
    parseUnsignedDecimal cs = some (JNum.fin (digitsValue cs : ℚ)) := by
  unfold parseUnsignedDecimal
  have hinf : cs ≠ "Infinity".data := by
    intro he
    have := h 'I' (by rw [he]; decide)
    exact absurd this (by decide)
  simp only [hinf, if_false, takeWhile_digits cs h, dropWhile_digits cs h, hne, false_and,
    List.append_nil, List.length_nil, pow_zero, Rat.mkRat_one]
  rfl

theorem parseNonDecimal_digits (cs : List Char) (h : ∀ c ∈ cs, c.isDigit = true) :
    parseNonDecimal cs = none := by
  unfold parseNonDecimal
  match cs, h with
  | [], _ => rfl
  | [_], _ => rfl
  | z :: x :: rest, h =>
    have hx := h x (by simp)
    have h1 : ¬ (x = 'x' ∨ x = 'X') := by rintro (e | e) <;> (subst e; exact absurd hx (by decide))
    have h2 : ¬ (x = 'o' ∨ x = 'O') := by rintro (e | e) <;> (subst e; exact absurd hx (by decide))
    have h3 : ¬ (x = 'b' ∨ x = 'B') := by rintro (e | e) <;> (subst e; exact absurd hx (by decide))
    simp only [h1, h2, h3, if_false, ite_self]

theorem floorLog2_spec (fuel : Nat) : ∀ n : Nat, 1 ≤ n → n ≤ fuel →
    2 ^ floorLog2 fuel n ≤ n ∧ n < 2 ^ (floorLog2 fuel n + 1) := by
  induction fuel with
  | zero => intro n h1 h2; omega
  | succ fuel ih =>
    intro n h1 h2
    rw [floorLog2]
    by_cases h : n < 2
    · rw [if_pos h]
      have : n = 1 := by omega
      subst this
      decide
    · rw [if_neg h]
      obtain ⟨i1, i2⟩ := ih (n / 2) (by omega) (by omega)
      rw [pow_succ] at i2 ⊢
      rw [pow_succ]
      constructor <;> omega

theorem roundPositive_small (n : Nat) (h1 : 1 ≤ n) (h2 : n < 2 ^ 53) :
    roundPositive n 1 = JNum.fin (n : ℚ) := by
  obtain ⟨s1, s2⟩ := floorLog2_spec n n h1 (le_refl n)
  obtain ⟨k, hkd⟩ : ∃ k, floorLog2 n n = k := ⟨_, rfl⟩
  rw [hkd] at s1 s2
  have hk : k ≤ 52 := by
    by_contra hc
    have : 2 ^ 53 ≤ 2 ^ k := Nat.pow_le_pow_right (by decide) (by omega)
    omega
  have hl1 : floorLog2 1 1 = 0 := rfl
  have t1 : (-((k : Int) - ((0 : Nat) : Int))).toNat = 0 := by omega
  have t2 : ((k : Int) - ((0 : Nat) : Int)).toNat = k := by omega
  have c1 : ¬ (n * 2 ^ 0 < 1 * 2 ^ k) := by omega
  have c2 : ¬ ((k : Int) - ((0 : Nat) : Int) - 52 < -1074) := by omega
  have t3 : (-((k : Int) - ((0 : Nat) : Int) - 52)).toNat = 52 - k := by omega
  have t4 : ((k : Int) - ((0 : Nat) : Int) - 52).toNat = 0 := by omega
  have hpos : 0 < 2 ^ (52 - k) := Nat.two_pow_pos _
  have hv1 : 1 ≤ n * 2 ^ (52 - k) := Nat.mul_pos h1 hpos
  have hv2 : n * 2 ^ (52 - k) < 2 ^ 105 := by
    have a1 : n * 2 ^ (52 - k) < 2 ^ 53 * 2 ^ (52 - k) := Nat.mul_lt_mul_of_pos_right h2 hpos
    have a2 : 2 ^ (52 - k) ≤ 2 ^ 52 := Nat.pow_le_pow_right (by decide) (by omega)
    have a3 : 2 ^ 53 * 2 ^ (52 - k) ≤ 2 ^ 53 * 2 ^ 52 := Nat.mul_le_mul_left _ a2
    have a4 : (2 : Nat) ^ 53 * 2 ^ 52 = 2 ^ 105 := by decide
    omega
  have c3 : ¬ (1024 ≤ floorLog2 (n * 2 ^ (52 - k)) (n * 2 ^ (52 - k))) := by
    intro hc
    obtain ⟨v1, _⟩ := floorLog2_spec _ _ hv1 (le_refl _)
    have : 2 ^ 105 ≤ 2 ^ floorLog2 (n * 2 ^ (52 - k)) (n * 2 ^ (52 - k)) :=
      Nat.pow_le_pow_right (by decide) (by omega)
    omega
  unfold roundPositive
  simp only [hkd, hl1, t1, t2, c1, if_false, c2, t3, t4]
  simp only [pow_zero, mul_one, Nat.div_one, Nat.mod_one, mul_zero, Nat.zero_lt_one, if_true, c3,
    if_false]
  congr 1
  rw [Rat.mkRat_eq_div]
  push_cast
  field_simp

theorem roundToDouble_nat (n : Nat) (h : n ≤ 2 ^ 53) :
    roundToDouble (JNum.fin (n : ℚ)) = JNum.fin (n : ℚ) := by
  by_cases h0 : n = 0
  · subst h0; rfl
  by_cases h53 : n = 2 ^ 53
  · subst h53; decide
  have hnum : ((n : ℚ)).num = (n : Int) := Rat.num_natCast n
  have hden : ((n : ℚ)).den = 1 := Rat.den_natCast n
  have c1 : ¬ ((n : Int) = 0) := by omega
  have c2 : ¬ ((n : Int) < 0) := by omega
  simp only [roundToDouble, hnum, hden, c1, c2, if_false, Int.toNat_ofNat]
  exact roundPositive_small n (by omega) (by omega)

theorem stringToNumber_rounds :
    stringToNumber "9007199254740993" = JNum.fin 9007199254740992 := by decide

theorem stringNumericValue_digits (cs : List Char) (hne : cs ≠ [])
    (h : ∀ c ∈ cs, c.isDigit = true) :
    stringNumericValue (String.mk cs) = JNum.fin (digitsValue cs : ℚ) := by
  unfold stringNumericValue
  simp only [trimWhiteSpace_digits cs h]
  match cs, hne, h with
  | c :: rest, hne, h =>
    have hc := h c (List.mem_cons_self _ _)
    have h1 : c ≠ '+' := by intro e; subst e; exact absurd hc (by decide)
    have h2 : c ≠ '-' := by intro e; subst e; exact absurd hc (by decide)
    simp only [h1, h2, if_false, parseNonDecimal_digits _ h, parseUnsignedDecimal_digits _ hne h,
      Option.getD_some]

theorem stringToNumber_digits (cs : List Char) (hne : cs ≠ [])
    (h : ∀ c ∈ cs, c.isDigit = true) (hb : digitsValue cs ≤ 2 ^ 53) :
    stringToNumber (String.mk cs) = JNum.fin (digitsValue cs : ℚ) := by
  unfold stringToNumber
  rw [stringNumericValue_digits cs hne h, roundToDouble_nat _ hb]

theorem twoDigits_isDigit (n : Nat) (h : n < 100) : ∀ c ∈ twoDigits n, c.isDigit = true := by
  intro c hc
  simp only [twoDigits, List.mem_cons, List.mem_singleton, List.not_mem_nil, or_false] at hc
  rcases hc with rfl | rfl
  · exact digitChar_isDigit _ (by omega)
  · exact digitChar_isDigit _ (by omega)

theorem fourDigits_isDigit (n : Nat) (h : n < 10000) : ∀ c ∈ fourDigits n, c.isDigit = true := by
  intro c hc
  simp only [fourDigits, List.mem_cons, List.mem_singleton, List.not_mem_nil, or_false] at hc
  rcases hc with rfl | rfl | rfl | rfl <;> exact digitChar_isDigit _ (by omega)

theorem digitsValue_twoDigits (n : Nat) (h : n < 100) : digitsValue (twoDigits n) = n := by
  simp only [digitsValue, twoDigits, List.foldl, digitChar_toNat (n / 10) (by omega),
    digitChar_toNat (n % 10) (by omega)]
  omega

theorem digitsValue_fourDigits (n : Nat) (h : n < 10000) : digitsValue (fourDigits n) = n := by
  simp only [digitsValue, fourDigits, List.foldl, digitChar_toNat (n / 1000) (by omega),
    digitChar_toNat (n / 100 % 10) (by omega), digitChar_toNat (n / 10 % 10) (by omega),
    digitChar_toNat (n % 10) (by omega)]
  omega

theorem stringToNumber_twoDigits (n : Nat) (h : n < 100) :
    stringToNumber (String.mk (twoDigits n)) = JNum.fin (n : ℚ) := by
  rw [stringToNumber_digits _ (by simp [twoDigits]) (twoDigits_isDigit n h)
      (by rw [digitsValue_twoDigits n h]; omega),
    digitsValue_twoDigits n h]

theorem stringToNumber_fourDigits (n : Nat) (h : n < 10000) :
    stringToNumber (String.mk (fourDigits n)) = JNum.fin (n : ℚ) := by
  rw [stringToNumber_digits _ (by simp [fourDigits]) (fourDigits_isDigit n h)
      (by rw [digitsValue_fourDigits n h]; omega),
    digitsValue_fourDigits n h]

theorem JNum_add_fin (a b : ℚ) : JNum.add (JNum.fin a) (JNum.fin b) = JNum.fin (a + b) := by
  simp only [JNum.add, Rat.add_def']

theorem JNum_sub_fin (a b : ℚ) : JNum.sub (JNum.fin a) (JNum.fin b) = JNum.fin (a - b) := by
  simp only [JNum.sub, JNum.neg, JNum_add_fin, sub_eq_add_neg]

theorem toInteger_int (i : Int) : (JNum.fin (i : ℚ)).toInteger? = some i := by
  simp [JNum.toInteger?]

theorem decodeTimestamp_compact (y mo d h mi s : Nat) (hy : y < 10000) (hmo : mo < 100)
    (hd : d < 100) (hh : h < 100) (hmi : mi < 100) (hs : s < 100) :
    decodeTimestamp (compactTimestamp y mo d h mi s)
      = newDate (JNum.fin ((y : Int) : ℚ)) (JNum.fin (((mo : Int) - 1 : Int) : ℚ))
          (JNum.fin ((d : Int) : ℚ)) (JNum.fin ((h : Int) : ℚ)) (JNum.fin ((mi : Int) : ℚ))
          (JNum.fin ((s : Int) : ℚ)) := by
  have e1 : substring (compactTimestamp y mo d h mi s) 0 4 = String.mk (fourDigits y) := rfl
  have e2 : substring (compactTimestamp y mo d h mi s) 4 6 = String.mk (twoDigits mo) := rfl
  have e3 : substring (compactTimestamp y mo d h mi s) 6 8 = String.mk (twoDigits d) := rfl
  have e4 : substring (compactTimestamp y mo d h mi s) 8 10 = String.mk (twoDigits h) := rfl
  have e5 : substring (compactTimestamp y mo d h mi s) 10 12 = String.mk (twoDigits mi) := rfl
  have e6 : substring (compactTimestamp y mo d h mi s) 12 14 = String.mk (twoDigits s) := rfl
  unfold decodeTimestamp
  simp only [e1, e2, e3, e4, e5, e6, stringToNumber_fourDigits y hy, stringToNumber_twoDigits _ hmo,
    stringToNumber_twoDigits _ hd, stringToNumber_twoDigits _ hh, stringToNumber_twoDigits _ hmi,
    stringToNumber_twoDigits _ hs, JNum_sub_fin]
  congr 2
  push_cast
  ring

/-! ### The timestamp and its decoding -/

theorem timestampOf_eq (now : Int) (hy : 1000 ≤ YearFromTime now ∧ YearFromTime now ≤ 9999) :
    timestampOf now = compactTimestamp (YearFromTime now).toNat (MonthFromTime now + 1).toNat
      (DateFromTime now).toNat (HourFromTime now).toNat (MinFromTime now).toNat
      (SecFromTime now).toNat := by
  have hm := MonthFromTime_bounds now
  have hd := DateFromTime_bounds now
  have hh := HourFromTime_bounds now
  have hmi := MinFromTime_bounds now
  have hs := SecFromTime_bounds now
  have c1 : YearFromTime now = ((YearFromTime now).toNat : Int) := by omega
  have c2 : MonthFromTime now + 1 = ((MonthFromTime now + 1).toNat : Int) := by omega
  have c3 : DateFromTime now = ((DateFromTime now).toNat : Int) := by omega
  have c4 : HourFromTime now = ((HourFromTime now).toNat : Int) := by omega
  have c5 : MinFromTime now = ((MinFromTime now).toNat : Int) := by omega
  have c6 : SecFromTime now = ((SecFromTime now).toNat : Int) := by omega
  unfold timestampOf
  simp only []
  rw [c1, c2, c3, c4, c5, c6]
  rw [intToString_four _ (by omega) (by omega), padStart_two _ (by omega),
    padStart_two _ (by omega), padStart_two _ (by omega), padStart_two _ (by omega),
    padStart_two _ (by omega)]
  simp only [Int.toNat_ofNat]
  rfl

theorem compactTimestamp_length (y mo d h mi s : Nat) :
    (compactTimestamp y mo d h mi s).length = 14 := rfl

theorem compactTimestamp_digits (y mo d h mi s : Nat) (hy : y < 10000) (hmo : mo < 100)
    (hd : d < 100) (hh : h < 100) (hmi : mi < 100) (hs : s < 100) :
    ∀ c ∈ (compactTimestamp y mo d h mi s).data, c.isDigit = true := by
  intro c hc
  simp only [compactTimestamp, List.mem_append] at hc
  rcases hc with ((((hc | hc) | hc) | hc) | hc) | hc
  · exact fourDigits_isDigit y hy c hc
  · exact twoDigits_isDigit mo hmo c hc
  · exact twoDigits_isDigit d hd c hc
  · exact twoDigits_isDigit h hh c hc
  · exact twoDigits_isDigit mi hmi c hc
  · exact twoDigits_isDigit s hs c hc

theorem time_bounds_of_year (t : Int) (hy : 1000 ≤ YearFromTime t ∧ YearFromTime t ≤ 9999) :
    -30610224000000 ≤ t ∧ t < 253402300800000 := by
  have h := YearFromDay_spec (Day t)
  have h1 := DayFromYear_mono hy.1
  have h2 := DayFromYear_mono (show YearFromTime t + 1 ≤ 10000 by omega)
  have e1 : DayFromYear 1000 = -354285 := by decide
  have e2 : DayFromYear 10000 = 2932897 := by decide
  unfold YearFromTime at h1 h2
  unfold Day msPerDay at h
  unfold Day msPerDay at h1 h2
  omega

theorem fields_trunc (t : Int) :
    (dateOfTime (t - t % 1000)).fields = (dateOfTime t).fields := by
  have hday : Day (t - t % 1000) = Day t := by unfold Day msPerDay; omega
  have h1 : YearFromTime (t - t % 1000) = YearFromTime t := by unfold YearFromTime; rw [hday]
  have h2 : DayWithinYear (t - t % 1000) = DayWithinYear t := by
    unfold DayWithinYear; rw [hday, h1]
  have h3 : MonthFromTime (t - t % 1000) = MonthFromTime t := by
    unfold MonthFromTime; rw [h2, h1]
  have h4 : DateFromTime (t - t % 1000) = DateFromTime t := by
    unfold DateFromTime; rw [h2, h3, h1]
  have h5 : HourFromTime (t - t % 1000) = HourFromTime t := by unfold HourFromTime; omega
  have h6 : MinFromTime (t - t % 1000) = MinFromTime t := by unfold MinFromTime; omega
  have h7 : SecFromTime (t - t % 1000) = SecFromTime t := by unfold SecFromTime; omega
  simp only [JSDate.fields, dateOfTime, JSDate.getFullYear, JSDate.getMonth, JSDate.getDate,
    JSDate.getHours, JSDate.getMinutes, JSDate.getSeconds, h1, h3, h4, h5, h6, h7]

theorem newDate_int (y m d h mi s : Int) (hy : ¬ (0 ≤ y ∧ y ≤ 99)) :
    newDate (JNum.fin (y : ℚ)) (JNum.fin (m : ℚ)) (JNum.fin (d : ℚ)) (JNum.fin (h : ℚ))
      (JNum.fin (mi : ℚ)) (JNum.fin (s : ℚ))
      = { tv := TimeClip (MakeDate (MakeDay y m d) (MakeTime h mi s 0)) } := by
  unfold newDate
  simp only [toInteger_int, hy, if_false]

theorem TimeClip_ok (t : Int) (h : -8640000000000000 ≤ t ∧ t ≤ 8640000000000000) :
    TimeClip t = some t := by
  unfold TimeClip
  rw [if_neg (by omega)]

theorem roundtrip_tv (now : Int) (hy : 1000 ≤ YearFromTime now ∧ YearFromTime now ≤ 9999) :
    decodeTimestamp (timestampOf now) = dateOfTime (now - now % 1000) := by
  have hm := MonthFromTime_bounds now
  have hd := DateFromTime_bounds now
  have hh := HourFromTime_bounds now
  have hmi := MinFromTime_bounds now
  have hs := SecFromTime_bounds now
  have hb := time_bounds_of_year now hy
  rw [timestampOf_eq now hy, decodeTimestamp_compact _ _ _ _ _ _ (by omega) (by omega) (by omega)
    (by omega) (by omega) (by omega), newDate_int _ _ _ _ _ _ (by omega)]
  have c1 : ((YearFromTime now).toNat : Int) = YearFromTime now := by omega
  have c2 : (((MonthFromTime now + 1).toNat : Int) - 1) = MonthFromTime now := by omega
  have c3 : ((DateFromTime now).toNat : Int) = DateFromTime now := by omega
  have c4 : ((HourFromTime now).toNat : Int) = HourFromTime now := by omega
  have c5 : ((MinFromTime now).toNat : Int) = MinFromTime now := by omega
  have c6 : ((SecFromTime now).toNat : Int) = SecFromTime now := by omega
  rw [c1, c2, c3, c4, c5, c6, MakeDate_fields, TimeClip_ok _ (by omega)]
  rfl

theorem monthOfDayInYear_eq (x l k : Int) (hl : l = 0 ∨ l = 1)
    (h : (k = 0 ∧ 0 ≤ x ∧ x < 31) ∨
      (k = 1 ∧ 31 ≤ x ∧ x < 59 + l) ∨
      (k = 2 ∧ 59 + l ≤ x ∧ x < 90 + l) ∨
      (k = 3 ∧ 90 + l ≤ x ∧ x < 120 + l) ∨
      (k = 4 ∧ 120 + l ≤ x ∧ x < 151 + l) ∨
      (k = 5 ∧ 151 + l ≤ x ∧ x < 181 + l) ∨
      (k = 6 ∧ 181 + l ≤ x ∧ x < 212 + l) ∨
      (k = 7 ∧ 212 + l ≤ x ∧ x < 243 + l) ∨
      (k = 8 ∧ 243 + l ≤ x ∧ x < 273 + l) ∨
      (k = 9 ∧ 273 + l ≤ x ∧ x < 304 + l) ∨
      (k = 10 ∧ 304 + l ≤ x ∧ x < 334 + l) ∨
      (k = 11 ∧ 334 + l ≤ x)) :
    monthOfDayInYear x l = k := by
  unfold monthOfDayInYear
  by_cases c0 : x < 31
  · rw [if_pos c0]; omega
  rw [if_neg c0]
  by_cases c1 : x < 59 + l
  · rw [if_pos c1]; omega
  rw [if_neg c1]
  by_cases c2 : x < 90 + l
  · rw [if_pos c2]; omega
  rw [if_neg c2]
  by_cases c3 : x < 120 + l
  · rw [if_pos c3]; omega
  rw [if_neg c3]
  by_cases c4 : x < 151 + l
  · rw [if_pos c4]; omega
  rw [if_neg c4]
  by_cases c5 : x < 181 + l
  · rw [if_pos c5]; omega
  rw [if_neg c5]
  by_cases c6 : x < 212 + l
  · rw [if_pos c6]; omega
  rw [if_neg c6]
  by_cases c7 : x < 243 + l
  · rw [if_pos c7]; omega
  rw [if_neg c7]
  by_cases c8 : x < 273 + l
  · rw [if_pos c8]; omega
  rw [if_neg c8]
  by_cases c9 : x < 304 + l
  · rw [if_pos c9]; omega
  rw [if_neg c9]
  by_cases c10 : x < 334 + l
  · rw [if_pos c10]; omega
  rw [if_neg c10]
  omega

theorem monthStart_DaysInMonth (m l : Int) (hm : 0 ≤ m ∧ m ≤ 11) :
    (m = 0 ∧ monthStart m l = 0 ∧ DaysInMonth m l = 31) ∨
      (m = 1 ∧ monthStart m l = 31 ∧ DaysInMonth m l = 28 + l) ∨
      (m = 2 ∧ monthStart m l = 59 + l ∧ DaysInMonth m l = 31) ∨
      (m = 3 ∧ monthStart m l = 90 + l ∧ DaysInMonth m l = 30) ∨
      (m = 4 ∧ monthStart m l = 120 + l ∧ DaysInMonth m l = 31) ∨
      (m = 5 ∧ monthStart m l = 151 + l ∧ DaysInMonth m l = 30) ∨
      (m = 6 ∧ monthStart m l = 181 + l ∧ DaysInMonth m l = 31) ∨
      (m = 7 ∧ monthStart m l = 212 + l ∧ DaysInMonth m l = 31) ∨
      (m = 8 ∧ monthStart m l = 243 + l ∧ DaysInMonth m l = 30) ∨
      (m = 9 ∧ monthStart m l = 273 + l ∧ DaysInMonth m l = 31) ∨
      (m = 10 ∧ monthStart m l = 304 + l ∧ DaysInMonth m l = 30) ∨
      (m = 11 ∧ monthStart m l = 334 + l ∧ DaysInMonth m l = 31) := by
  obtain ⟨h0, h1⟩ := hm
  interval_cases m <;> simp [monthStart, DaysInMonth]

theorem month_of_calendar (m l d : Int) (hl : l = 0 ∨ l = 1) (hm : 0 ≤ m ∧ m ≤ 11)
    (hd : 1 ≤ d ∧ d ≤ DaysInMonth m l) :
    monthOfDayInYear (monthStart m l + d - 1) l = m := by
  have T := monthStart_DaysInMonth m l hm
  rcases T with h | h | h | h | h | h | h | h | h | h | h | h
  · obtain ⟨rfl, hs, hdm⟩ := h
    rw [hs]
    rw [hdm] at hd
    exact monthOfDayInYear_eq _ _ _ hl
      (Or.inl ⟨rfl, by omega, by omega⟩)
  · obtain ⟨rfl, hs, hdm⟩ := h
    rw [hs]
    rw [hdm] at hd
    exact monthOfDayInYear_eq _ _ _ hl
      (Or.inr (Or.inl ⟨rfl, by omega, by omega⟩))
  · obtain ⟨rfl, hs, hdm⟩ := h
    rw [hs]
    rw [hdm] at hd
    exact monthOfDayInYear_eq _ _ _ hl
      (Or.inr (Or.inr (Or.inl ⟨rfl, by omega, by omega⟩)))
  · obtain ⟨rfl, hs, hdm⟩ := h
    rw [hs]
    rw [hdm] at hd
    exact monthOfDayInYear_eq _ _ _ hl
      (Or.inr (Or.inr (Or.inr (Or.inl ⟨rfl, by omega, by omega⟩))))
  · obtain ⟨rfl, hs, hdm⟩ := h
    rw [hs]
    rw [hdm] at hd
    exact monthOfDayInYear_eq _ _ _ hl
      (Or.inr (Or.inr (Or.inr (Or.inr (Or.inl ⟨rfl, by omega, by omega⟩)))))
  · obtain ⟨rfl, hs, hdm⟩ := h
    rw [hs]
    rw [hdm] at hd
    exact monthOfDayInYear_eq _ _ _ hl
      (Or.inr (Or.inr (Or.inr (Or.inr (Or.inr (Or.inl ⟨rfl, by omega, by omega⟩))))))
  · obtain ⟨rfl, hs, hdm⟩ := h
    rw [hs]
    rw [hdm] at hd
    exact monthOfDayInYear_eq _ _ _ hl
      (Or.inr (Or.inr (Or.inr (Or.inr (Or.inr (Or.inr (Or.inl ⟨rfl, by omega, by omega⟩)))))))
  · obtain ⟨rfl, hs, hdm⟩ := h
    rw [hs]
    rw [hdm] at hd
    exact monthOfDayInYear_eq _ _ _ hl
      (Or.inr (Or.inr (Or.inr (Or.inr (Or.inr (Or.inr (Or.inr (Or.inl ⟨rfl, by omega, by omega⟩))))))))
  · obtain ⟨rfl, hs, hdm⟩ := h
    rw [hs]
    rw [hdm] at hd
    exact monthOfDayInYear_eq _ _ _ hl
      (Or.inr (Or.inr (Or.inr (Or.inr (Or.inr (Or.inr (Or.inr (Or.inr (Or.inl ⟨rfl, by omega, by omega⟩)))))))))
  · obtain ⟨rfl, hs, hdm⟩ := h
    rw [hs]
    rw [hdm] at hd
    exact monthOfDayInYear_eq _ _ _ hl
      (Or.inr (Or.inr (Or.inr (Or.inr (Or.inr (Or.inr (Or.inr (Or.inr (Or.inr (Or.inl ⟨rfl, by omega, by omega⟩))))))))))
  · obtain ⟨rfl, hs, hdm⟩ := h
    rw [hs]
    rw [hdm] at hd
    exact monthOfDayInYear_eq _ _ _ hl
      (Or.inr (Or.inr (Or.inr (Or.inr (Or.inr (Or.inr (Or.inr (Or.inr (Or.inr (Or.inr (Or.inl ⟨rfl, by omega, by omega⟩)))))))))))
  · obtain ⟨rfl, hs, hdm⟩ := h
    rw [hs]
    rw [hdm] at hd
    exact monthOfDayInYear_eq _ _ _ hl
      (Or.inr (Or.inr (Or.inr (Or.inr (Or.inr (Or.inr (Or.inr (Or.inr (Or.inr (Or.inr (Or.inr ⟨rfl, by omega⟩)))))))))))

theorem dayWithinYear_of_calendar (m l d : Int) (hl : l = 0 ∨ l = 1) (hm : 0 ≤ m ∧ m ≤ 11)
    (hd : 1 ≤ d ∧ d ≤ DaysInMonth m l) :
    0 ≤ monthStart m l + d - 1 ∧ monthStart m l + d - 1 < 365 + l := by
  have T := monthStart_DaysInMonth m l hm
  omega

/-- The getters of the Date built from the fields of a calendar date return those fields. -/
theorem fields_of_calendar (y m d h mi s : Int) (hm : 0 ≤ m ∧ m ≤ 11)
    (hd : 1 ≤ d ∧ d ≤ DaysInMonth m (leapDay y)) (hh : 0 ≤ h ∧ h ≤ 23)
    (hmi : 0 ≤ mi ∧ mi ≤ 59) (hs : 0 ≤ s ∧ s ≤ 59) :
    (dateOfTime (MakeDate (MakeDay y m d) (MakeTime h mi s 0))).fields = fieldsOf y m d h mi s := by
  have hl := leapDay_cases y
  have hw := dayWithinYear_of_calendar m (leapDay y) d hl hm hd
  have hmon := month_of_calendar m (leapDay y) d hl hm hd
  have e1 : m / 12 = 0 := by omega
  have e2 : m % 12 = m := by omega
  have hday : MakeDay y m d = DayFromYear y + (monthStart m (leapDay y) + d - 1) := by
    unfold MakeDay; simp only [e1, e2, add_zero]; omega
  have hD : Day (MakeDate (MakeDay y m d) (MakeTime h mi s 0)) = MakeDay y m d := by
    unfold Day MakeDate MakeTime msPerDay; omega
  have hY : YearFromTime (MakeDate (MakeDay y m d) (MakeTime h mi s 0)) = y := by
    unfold YearFromTime
    rw [hD, hday]
    apply YearFromDay_unique
    · omega
    · rw [DayFromYear_succ]
      have := leapDay_eq y
      omega
  have hW : DayWithinYear (MakeDate (MakeDay y m d) (MakeTime h mi s 0))
      = monthStart m (leapDay y) + d - 1 := by
    unfold DayWithinYear; rw [hD, hY, hday]; omega
  have hM : MonthFromTime (MakeDate (MakeDay y m d) (MakeTime h mi s 0)) = m := by
    unfold MonthFromTime; rw [hW, hY, hmon]
  have hDt : DateFromTime (MakeDate (MakeDay y m d) (MakeTime h mi s 0)) = d := by
    unfold DateFromTime; rw [hW, hM, hY]; omega
  have hH : HourFromTime (MakeDate (MakeDay y m d) (MakeTime h mi s 0)) = h := by
    unfold HourFromTime MakeDate MakeTime msPerDay; omega
  have hMi : MinFromTime (MakeDate (MakeDay y m d) (MakeTime h mi s 0)) = mi := by
    unfold MinFromTime MakeDate MakeTime msPerDay; omega
  have hS : SecFromTime (MakeDate (MakeDay y m d) (MakeTime h mi s 0)) = s := by
    unfold SecFromTime MakeDate MakeTime msPerDay; omega
  simp only [JSDate.fields, dateOfTime, JSDate.getFullYear, JSDate.getMonth, JSDate.getDate,
    JSDate.getHours, JSDate.getMinutes, JSDate.getSeconds, fieldsOf, hY, hM, hDt, hH, hMi, hS]

/-! ### UTF-8 and Base64 are injective -/

theorem char_toNat_lt (c : Char) : c.toNat < 1114112 := by
  have h := c.valid
  unfold Char.toNat
  rcases h with h | ⟨_, h⟩
  · have : c.val.toNat < 55296 := h
    omega
  · exact h

theorem char_toNat_inj (c d : Char) (h : c.toNat = d.toNat) : c = d := by
  apply Char.ext
  exact UInt32.ext h

theorem utf8EncodeChar_lt (c : Char) : ∀ b ∈ utf8EncodeChar c, b < 256 := by
  have h := char_toNat_lt c
  intro b hb
  unfold utf8EncodeChar at hb
  simp only at hb
  split_ifs at hb <;> simp only [List.mem_cons, List.mem_singleton, List.not_mem_nil, or_false] at hb <;> omega

theorem utf8Bytes_lt (cs : List Char) : ∀ b ∈ utf8Bytes cs, b < 256 := by
  induction cs with
  | nil => intro b hb; simp [utf8Bytes] at hb
  | cons c r ih =>
    intro b hb
    simp only [utf8Bytes, List.mem_append] at hb
    rcases hb with hb | hb
    · exact utf8EncodeChar_lt c b hb
    · exact ih b hb

theorem utf8EncodeChar_ne_nil (c : Char) : utf8EncodeChar c ≠ [] := by
  unfold utf8EncodeChar
  simp only
  split_ifs <;> simp

theorem utf8EncodeChar_cancel (c d : Char) (x y : List Nat)
    (h : utf8EncodeChar c ++ x = utf8EncodeChar d ++ y) : c = d ∧ x = y := by
  have hc := char_toNat_lt c
  have hd := char_toNat_lt d
  unfold utf8EncodeChar at h
  simp only at h
  split_ifs at h <;>
    simp only [List.cons_append, List.nil_append, List.cons.injEq] at h <;>
    first
    | omega
    | exact ⟨char_toNat_inj c d (by omega), by simp_all⟩

theorem utf8Bytes_injective (cs ds : List Char) (h : utf8Bytes cs = utf8Bytes ds) : cs = ds := by
  induction cs generalizing ds with
  | nil =>
    cases ds with
    | nil => rfl
    | cons d r =>
      simp only [utf8Bytes] at h
      have := utf8EncodeChar_ne_nil d
      cases hd : utf8EncodeChar d with
      | nil => exact absurd hd this
      | cons a l => rw [hd] at h; simp at h
  | cons c r ih =>
    cases ds with
    | nil =>
      simp only [utf8Bytes] at h
      have := utf8EncodeChar_ne_nil c
      cases hc : utf8EncodeChar c with
      | nil => exact absurd hc this
      | cons a l => rw [hc] at h; simp at h
    | cons d r' =>
      simp only [utf8Bytes] at h
      obtain ⟨h1, h2⟩ := utf8EncodeChar_cancel c d _ _ h
      rw [h1, ih r' h2]

theorem base64Char_toNat (n : Nat) (h : n < 64) :
    (base64Char n).toNat =
      if n < 26 then 65 + n else if n < 52 then 71 + n else if n < 62 then n - 4
      else if n = 62 then 43 else 47 := by
  interval_cases n <;> rfl

theorem base64Char_inj (m n : Nat) (hm : m < 64) (hn : n < 64)
    (h : base64Char m = base64Char n) : m = n := by
  have h1 := base64Char_toNat m hm
  have h2 := base64Char_toNat n hn
  rw [h] at h1
  rw [h1] at h2
  split_ifs at h2 <;> omega

theorem base64Char_ne_pad (n : Nat) (hn : n < 64) : base64Char n ≠ '=' := by
  intro h
  have h1 := base64Char_toNat n hn
  rw [h] at h1
  have : ('=' : Char).toNat = 61 := rfl
  rw [this] at h1
  split_ifs at h1 <;> omega


theorem base64Chars_injective : ∀ (xs ys : List Nat), (∀ b ∈ xs, b < 256) → (∀ b ∈ ys, b < 256) →
    base64Chars xs = base64Chars ys → xs = ys
  | [], [], _, _, _ => rfl
  | [], [_], _, _, h => by simp [base64Chars] at h
  | [], [_, _], _, _, h => by simp [base64Chars] at h
  | [], _ :: _ :: _ :: _, _, _, h => by simp [base64Chars] at h
  | [_], [], _, _, h => by simp [base64Chars] at h
  | [_, _], [], _, _, h => by simp [base64Chars] at h
  | _ :: _ :: _ :: _, [], _, _, h => by simp [base64Chars] at h
  | [a], [a'], hx, hy, h => by
    have ha := hx a (by simp)
    have ha' := hy a' (by simp)
    simp only [base64Chars, List.cons.injEq, and_true] at h
    have h1 := base64Char_inj _ _ (by omega) (by omega) h.1
    have h2 := base64Char_inj _ _ (by omega) (by omega) h.2
    have : a = a' := by omega
    rw [this]
  | [a], [a', b'], hx, hy, h => by
    have hb' := hy b' (by simp)
    simp only [base64Chars, List.cons.injEq, and_true] at h
    exact absurd h.2.2.symm (base64Char_ne_pad _ (by omega))
  | [a], a' :: b' :: c' :: r', hx, hy, h => by
    have hb' := hy b' (by simp)
    have hc' := hy c' (by simp)
    simp only [base64Chars, List.cons.injEq] at h
    exact absurd h.2.2.1.symm (base64Char_ne_pad _ (by omega))
  | [a, b], [a'], hx, hy, h => by
    have hb := hx b (by simp)
    simp only [base64Chars, List.cons.injEq, and_true] at h
    exact absurd h.2.2 (base64Char_ne_pad _ (by omega))
  | [a, b], [a', b'], hx, hy, h => by
    have ha := hx a (by simp)
    have ha' := hy a' (by simp)
    have hb := hx b (by simp)
    have hb' := hy b' (by simp)
    simp only [base64Chars, List.cons.injEq, and_true] at h
    have h1 := base64Char_inj _ _ (by omega) (by omega) h.1
    have h2 := base64Char_inj _ _ (by omega) (by omega) h.2.1
    have h3 := base64Char_inj _ _ (by omega) (by omega) h.2.2
    have e1 : a = a' := by omega
    have e2 : b = b' := by omega
    rw [e1, e2]
  | [a, b], a' :: b' :: c' :: r', hx, hy, h => by
    have hc' := hy c' (by simp)
    simp only [base64Chars, List.cons.injEq] at h
    exact absurd h.2.2.2.1.symm (base64Char_ne_pad _ (by omega))
  | a :: b :: c :: r, [a'], hx, hy, h => by
    have hb := hx b (by simp)
    have hc := hx c (by simp)
    simp only [base64Chars, List.cons.injEq] at h
    exact absurd h.2.2.1 (base64Char_ne_pad _ (by omega))
  | a :: b :: c :: r, [a', b'], hx, hy, h => by
    have hc := hx c (by simp)
    simp only [base64Chars, List.cons.injEq] at h
    exact absurd h.2.2.2.1 (base64Char_ne_pad _ (by omega))
  | a :: b :: c :: r, a' :: b' :: c' :: r', hx, hy, h => by
    have ha := hx a (by simp)
    have ha' := hy a' (by simp)
    have hb := hx b (by simp)
    have hb' := hy b' (by simp)
    have hc := hx c (by simp)
    have hc' := hy c' (by simp)
    simp only [base64Chars, List.cons.injEq] at h
    have h1 := base64Char_inj _ _ (by omega) (by omega) h.1
    have h2 := base64Char_inj _ _ (by omega) (by omega) h.2.1
    have h3 := base64Char_inj _ _ (by omega) (by omega) h.2.2.1
    have h4 := base64Char_inj _ _ (by omega) (by omega) h.2.2.2.1
    have e1 : a = a' := by omega
    have e2 : b = b' := by omega
    have e3 : c = c' := by omega
    have ih := base64Chars_injective r r'
      (fun x hx' => hx x (by simp [hx'])) (fun x hy' => hy x (by simp [hy'])) h.2.2.2.2
    rw [e1, e2, e3, ih]

theorem password_injective (x y : String)
    (h : toBase64 (bufferFrom x) = toBase64 (bufferFrom y)) : x = y := by
  unfold toBase64 bufferFrom at h
  have h1 : base64Chars (utf8Bytes x.data) = base64Chars (utf8Bytes y.data) := by
    injection h
  have h2 := base64Chars_injective _ _ (utf8Bytes_lt _) (utf8Bytes_lt _) h1
  have h3 := utf8Bytes_injective _ _ h2
  exact String.ext h3

theorem generatePassword_strings (w : World) (req : Req) (s p t : String) :
    passwordOf w req s p t = JVal.str (toBase64 (bufferFrom (s ++ p ++ t))) := rfl

/-! ### The handlers -/

theorem strictEqStr_iff (v : JVal) (s : String) : v.strictEqStr s = true ↔ v = JVal.str s := by
  cases v <;> simp [JVal.strictEqStr]

theorem strictEqZero_iff (v : JVal) : v.strictEqZero = true ↔ v = JVal.num (JNum.fin 0) := by
  cases v with
  | num n => cases n <;> simp [JVal.strictEqZero]
  | _ => simp [JVal.strictEqZero]

theorem flagged_iff (cb : JVal) :
    ((cb.opt "ResultDesc").strictEqStr "The service request is processed successfully."
      && (cb.opt "ResultCode").strictEqZero) = true ↔ successFlagged cb := by
  simp only [Bool.and_eq_true, strictEqStr_iff, strictEqZero_iff, successFlagged]

theorem getProp_of_not_nullish (v : JVal) (k : String) (h : v.isNullish = false) :
    getProp v k = Except.ok (v.get k) := by
  simp [getProp, h]

theorem opt_of_not_nullish (v : JVal) (k : String) (h : v.isNullish = false) :
    v.opt k = v.get k := by
  simp [JVal.opt, h]

theorem findValue_eq_firstValue (xs : List JVal) (name : String)
    (h : ∀ item ∈ xs, item.isNullish = false) :
    findValue (JVal.arr xs) name = Except.ok (firstValue xs name) := by
  unfold findValue
  simp only
  induction xs with
  | nil => rfl
  | cons item rest ih =>
    have hi := h item (List.mem_cons_self _ _)
    have hr := ih (fun x hx => h x (List.mem_cons_of_mem _ hx))
    unfold findByName
    rw [getProp_of_not_nullish item "Name" hi]
    simp only
    by_cases hn : (item.get "Name").strictEqStr name = true
    · simp only [hn, if_true, firstValue, List.find?, Except.map, opt_of_not_nullish item "Value" hi]
    · simp only [hn] at hr ⊢
      simp only [Bool.false_eq_true, if_false, firstValue, List.find?, hn]
      exact hr

theorem stkExtract_eq (xs : List JVal) (ts : String)
    (h : ∀ item ∈ xs, item.isNullish = false)
    (hts : toStr (firstValue xs "TransactionDate") = Except.ok ts) :
    stkExtract (JVal.arr xs) = Except.ok (LogEntry.paymentProcessed (firstValue xs "Amount")
      (firstValue xs "PhoneNumber") (firstValue xs "MpesaReceiptNumber") (decodeTimestamp ts)) := by
  unfold stkExtract
  simp only [findValue_eq_firstValue xs _ h, Except.bind, hts]

theorem stkCallBack_flagged (w : World) (req : Req) (xs : List JVal) (ts : String)
    (hflag : successFlagged ((req.body.opt "Body").opt "stkCallback"))
    (hitems : (((req.body.opt "Body").opt "stkCallback").opt "CallbackMetadata").opt "Item"
      = JVal.arr xs)
    (h : ∀ item ∈ xs, item.isNullish = false)
    (hts : toStr (firstValue xs "TransactionDate") = Except.ok ts) :
    stkCallBack w req =
      { events := [Event.log (LogEntry.paymentProcessed (firstValue xs "Amount")
          (firstValue xs "PhoneNumber") (firstValue xs "MpesaReceiptNumber")
          (decodeTimestamp ts))],
        req := req, outcome := Outcome.respond 200 ackSuccess } := by
  unfold stkCallBack
  simp only [(flagged_iff _).mpr hflag, if_true, hitems, stkExtract_eq xs ts h hts]

theorem stkCallBack_not_flagged (w : World) (req : Req)
    (hflag : ¬ successFlagged ((req.body.opt "Body").opt "stkCallback")) :
    stkCallBack w req =
      { events := [Event.log (LogEntry.paymentFailed ((req.body.opt "Body").opt "stkCallback"))],
        req := req, outcome := Outcome.respond 200 ackSuccess } := by
  unfold stkCallBack
  have : ¬ (((((req.body.opt "Body").opt "stkCallback").opt "ResultDesc").strictEqStr
      "The service request is processed successfully."
      && (((req.body.opt "Body").opt "stkCallback").opt "ResultCode").strictEqZero) = true) :=
    fun hc => hflag ((flagged_iff _).mp hc)
  simp only [this, Bool.false_eq_true, if_false]

theorem truthy_of_isPositive (n : JNum) (h : n.isPositive = true) : n.truthy = true := by
  cases n with
  | fin q =>
    simp only [JNum.isPositive, decide_eq_true_eq] at h
    simp only [JNum.truthy, decide_eq_true_eq]
    intro hq
    rw [hq] at h
    exact absurd h (by decide)
  | posInf => rfl
  | nan => simp [JNum.isPositive] at h
  | negInf => simp [JNum.isPositive] at h

theorem decode_calendar (y mo d h mi s : Nat) (hy : 100 ≤ y ∧ y ≤ 9999)
    (hmo : 1 ≤ mo ∧ mo ≤ 12)
    (hd : 1 ≤ (d : Int) ∧ (d : Int) ≤ DaysInMonth ((mo : Int) - 1) (leapDay (y : Int)))
    (hh : h ≤ 23) (hmi : mi ≤ 59) (hs : s ≤ 59) :
    (decodeTimestamp (compactTimestamp y mo d h mi s)).fields
      = fieldsOf y ((mo : Int) - 1) d h mi s := by
  have hd31 : (d : Int) ≤ 31 := by
    have T := monthStart_DaysInMonth ((mo : Int) - 1) (leapDay (y : Int)) (by omega)
    have hl := leapDay_cases (y : Int)
    omega
  rw [decodeTimestamp_compact y mo d h mi s (by omega) (by omega) (by omega) (by omega)
    (by omega) (by omega), newDate_int _ _ _ _ _ _ (by omega)]
  have hf := fields_of_calendar (y : Int) ((mo : Int) - 1) d h mi s (by omega) hd (by omega)
    (by omega) (by omega)
  have hclip : TimeClip (MakeDate (MakeDay (y : Int) ((mo : Int) - 1) d) (MakeTime h mi s 0))
      = some (MakeDate (MakeDay (y : Int) ((mo : Int) - 1) d) (MakeTime h mi s 0)) := by
    apply TimeClip_ok
    have e1 : ((mo : Int) - 1) / 12 = 0 := by omega
    have e2 : ((mo : Int) - 1) % 12 = (mo : Int) - 1 := by omega
    have T := monthStart_DaysInMonth ((mo : Int) - 1) (leapDay (y : Int)) (by omega)
    have hl := leapDay_cases (y : Int)
    have m1 := DayFromYear_mono (show (100 : Int) ≤ (y : Int) by omega)
    have m2 := DayFromYear_mono (show (y : Int) ≤ 9999 by omega)
    have c1 : DayFromYear 100 = -683003 := by decide
    have c2 : DayFromYear 9999 = 2932532 := by decide
    unfold MakeDate MakeDay MakeTime msPerDay
    simp only [e1, e2, add_zero]
    omega
  rw [hclip]
  exact hf

theorem toDigitsCore_fuel (f1 : Nat) : ∀ (f2 n : Nat) (ds : List Char), n < f1 → n < f2 →
    Nat.toDigitsCore 10 f1 n ds = Nat.toDigitsCore 10 f2 n ds := by
  induction f1 with
  | zero => intro f2 n ds h; omega
  | succ f1 ih =>
    intro f2 n ds h1 h2
    obtain ⟨g, rfl⟩ : ∃ g, f2 = g + 1 := ⟨f2 - 1, by omega⟩
    rw [Nat.toDigitsCore, Nat.toDigitsCore]
    by_cases hz : n / 10 = 0
    · simp only [hz, if_true]
    · simp only [hz, if_false]
      exact ih g (n / 10) _ (by omega) (by omega)

theorem toDigitsCore_append (f : Nat) : ∀ (n : Nat) (ds : List Char),
    Nat.toDigitsCore 10 f n ds = Nat.toDigitsCore 10 f n [] ++ ds := by
  induction f with
  | zero => intro n ds; simp [Nat.toDigitsCore]
  | succ f ih =>
    intro n ds
    rw [Nat.toDigitsCore, Nat.toDigitsCore]
    by_cases hz : n / 10 = 0
    · simp only [hz, if_true, List.singleton_append]
    · simp only [hz, if_false]
      rw [ih (n / 10) (Nat.digitChar (n % 10) :: ds), ih (n / 10) [Nat.digitChar (n % 10)]]
      simp

theorem repr_step (n : Nat) (h : 10 ≤ n) :
    (Nat.repr n).data = (Nat.repr (n / 10)).data ++ [Nat.digitChar (n % 10)] := by
  have hz : ¬ n / 10 = 0 := by omega
  simp only [Nat.repr, Nat.toDigits, List.asString]
  rw [Nat.toDigitsCore]
  simp only [hz, if_false]
  rw [toDigitsCore_append, toDigitsCore_fuel n (n / 10 + 1) (n / 10) [] (by omega) (by omega)]

theorem repr_compact (y mo d h mi s : Nat) (hy : 1000 ≤ y ∧ y ≤ 9999) (hmo : mo < 100)
    (hd : d < 100) (hh : h < 100) (hmi : mi < 100) (hs : s < 100) :
    Nat.repr (y * 10000000000 + mo * 100000000 + d * 1000000 + h * 10000 + mi * 100 + s)
      = compactTimestamp y mo d h mi s := by
  apply String.ext
  generalize hn : y * 10000000000 + mo * 100000000 + d * 1000000 + h * 10000 + mi * 100 + s = n
  have q1 : n / 10 / 10 = mi + 100 * (h + 100 * (d + 100 * (mo + 100 * y))) := by omega
  have q2 : (mi + 100 * (h + 100 * (d + 100 * (mo + 100 * y)))) / 10 / 10
      = h + 100 * (d + 100 * (mo + 100 * y)) := by omega
  have q3 : (h + 100 * (d + 100 * (mo + 100 * y))) / 10 / 10 = d + 100 * (mo + 100 * y) := by
    omega
  have q4 : (d + 100 * (mo + 100 * y)) / 10 / 10 = mo + 100 * y := by omega
  have q5 : (mo + 100 * y) / 10 / 10 = y := by omega
  rw [repr_step n (by omega), repr_step (n / 10) (by omega), q1,
    repr_step _ (by omega), repr_step (_ / 10) (by omega), q2,
    repr_step _ (by omega), repr_step (_ / 10) (by omega), q3,
    repr_step _ (by omega), repr_step (_ / 10) (by omega), q4,
    repr_step _ (by omega), repr_step (_ / 10) (by omega), q5,
    repr_four y (by omega) (by omega)]
  have r1 : n % 10 = s % 10 := by omega
  have r2 : n / 10 % 10 = s / 10 := by omega
  have r3 : (mi + 100 * (h + 100 * (d + 100 * (mo + 100 * y)))) % 10 = mi % 10 := by omega
  have r4 : (mi + 100 * (h + 100 * (d + 100 * (mo + 100 * y)))) / 10 % 10 = mi / 10 := by omega
  have r5 : (h + 100 * (d + 100 * (mo + 100 * y))) % 10 = h % 10 := by omega
  have r6 : (h + 100 * (d + 100 * (mo + 100 * y))) / 10 % 10 = h / 10 := by omega
  have r7 : (d + 100 * (mo + 100 * y)) % 10 = d % 10 := by omega
  have r8 : (d + 100 * (mo + 100 * y)) / 10 % 10 = d / 10 := by omega
  have r9 : (mo + 100 * y) % 10 = mo % 10 := by omega
  have r10 : (mo + 100 * y) / 10 % 10 = mo / 10 := by omega
  simp only [r1, r2, r3, r4, r5, r6, r7, r8, r9, r10, compactTimestamp, twoDigits,
    List.append_assoc, List.singleton_append, List.cons_append, List.nil_append]

theorem toStr_compact_number (y mo d h mi s : Nat) (hy : 1000 ≤ y ∧ y ≤ 9999) (hmo : mo < 100)
    (hd : d < 100) (hh : h < 100) (hmi : mi < 100) (hs : s < 100) :
    toStr (JVal.int ((y * 10000000000 + mo * 100000000 + d * 1000000 + h * 10000 + mi * 100
      + s : Nat) : Int)) = Except.ok (compactTimestamp y mo d h mi s) := by
  have := intToString_nat (y * 10000000000 + mo * 100000000 + d * 1000000 + h * 10000 + mi * 100
      + s) (by omega)
  rw [repr_compact y mo d h mi s hy hmo hd hh hmi hs] at this
  simp only [JVal.int, toStr]
  unfold intToString at this
  rw [this]

/-! ### The stkpush route -/

theorem runRoute_cons_events (name : String) (handler : Handler)
    (rest : List (String × Handler)) (w : World) (req : Req) :
    ((handler w req).outcome = Outcome.next
      ∧ (runRoute ((name, handler) :: rest) w req).events
          = (handler w req).events ++ (runRoute rest w (handler w req).req).events)
    ∨ ((handler w req).outcome ≠ Outcome.next
      ∧ (runRoute ((name, handler) :: rest) w req).events = (handler w req).events) := by
  cases ho : (handler w req).outcome <;> simp [runRoute, ho]

theorem checkAmmountPhone_next (w : World) (req : Req)
    (h : (checkAmmountPhone w req).outcome = Outcome.next) :
    req.body.isNullish = false ∧ (req.body.get "ammount").truthy = true
      ∧ (req.body.get "phone").truthy = true ∧ (checkAmmountPhone w req).req = req := by
  unfold checkAmmountPhone at h ⊢
  cases hn : req.body.isNullish
  · simp only [hn, Bool.false_eq_true, if_false] at h ⊢
    cases ha : (req.body.get "ammount").truthy <;> cases hp : (req.body.get "phone").truthy <;>
      simp [ha, hp] at h ⊢
  · simp [hn] at h

theorem checkAmmountPhone_events (w : World) (req : Req) :
    (checkAmmountPhone w req).events = [] := by
  unfold checkAmmountPhone
  cases hn : req.body.isNullish
  · simp only [Bool.false_eq_true, if_false]
    cases ha : (req.body.get "ammount").truthy <;> cases hp : (req.body.get "phone").truthy <;>
      simp
  · simp

theorem generateToken_body (w : World) (req : Req) :
    (generateToken w req).req.body = req.body
    ∧ ∀ (url : JVal) (method authorization : String) (body : Option JVal),
        Event.fetch Endpoint.stkPush url method authorization body ∉ (generateToken w req).events := by
  unfold generateToken
  cases hr : w.authResponse with
  | rejected e => simp
  | response status body =>
    cases hok : statusOk status
    · simp [hok]
    · cases body with
      | error e => simp [hok]
      | ok data =>
        cases hg : getProp data "access_token" <;> simp [hok, hg]

theorem generatePassword_configured (w : World) (req : Req) (shortCode passKey ts : String)
    (hsc : w.env.SAFARICOM_SHORTCODE = some shortCode)
    (hpk : w.env.SAFARICOM_PASSKEY = some passKey)
    (hts : req.timestamp = JVal.str ts) :
    generatePassword w req =
      { events := [],
        req := { req with
          password := JVal.str (toBase64 (bufferFrom (shortCode ++ passKey ++ ts))),
          shortCode := JVal.str shortCode },
        outcome := Outcome.next } := by
  unfold generatePassword
  simp only [hsc, hpk, hts, envValue, jsAdd, toPrimitive, Except.bind]

theorem generateStkPush_events (w : World) (req : Req) :
    ∀ (endpoint : Endpoint) (url : JVal) (method authorization : String) (body : Option JVal),
      Event.fetch endpoint url method authorization body ∈ (generateStkPush w req).events →
      endpoint = Endpoint.stkPush ∧ body = some (payloadOf req) := by
  intro endpoint url method authorization body
  unfold generateStkPush
  cases hn : req.body.isNullish
  · simp only [Bool.false_eq_true, if_false]
    cases ht : toStr req.token with
    | error e => simp
    | ok token =>
      cases hs : w.stkResponse with
      | rejected e => simp [payloadOf]; intro h1 _ _ _ h5; exact ⟨h1, h5⟩
      | response status rb =>
        cases hok : statusOk status <;> cases rb <;> simp [payloadOf, hok] <;>
          (intro h1 _ _ _ h5; exact ⟨h1, h5⟩)
  · simp

theorem generateStkPush_sends (w : World) (req : Req) (token : String)
    (hn : req.body.isNullish = false) (ht : toStr req.token = Except.ok token) :
    Event.fetch Endpoint.stkPush (envValue w.env.SAFARICOM_STK_ENDPOINT) "POST"
      ("Bearer " ++ token) (some (payloadOf req)) ∈ (generateStkPush w req).events := by
  unfold generateStkPush
  simp only [hn, Bool.false_eq_true, if_false, ht]
  cases hs : w.stkResponse with
  | rejected e => simp [payloadOf]
  | response status rb =>
    cases hok : statusOk status <;> cases rb <;> simp [payloadOf, hok]

/-- The request as it reaches `generateStkPush` when `generateTimestamp` and
`generatePassword` have run on `req` with the short code and pass key set. -/
theorem signed_tail (w : World) (req : Req) (shortCode passKey : String)
    (hsc : w.env.SAFARICOM_SHORTCODE = some shortCode)
    (hpk : w.env.SAFARICOM_PASSKEY = some passKey) :
    (runRoute [("generateTimestamp", generateTimestamp), ("generatePassword", generatePassword),
        ("generateStkPush", generateStkPush)] w req).events
      = (generateStkPush w { req with
          timestamp := JVal.str (timestampOf w.now),
          password := JVal.str (toBase64 (bufferFrom
            (shortCode ++ passKey ++ timestampOf w.now))),
          shortCode := JVal.str shortCode }).events
    ∧ (runRoute [("generateTimestamp", generateTimestamp), ("generatePassword", generatePassword),
        ("generateStkPush", generateStkPush)] w req).ran
      = ["generateTimestamp", "generatePassword", "generateStkPush"] := by
  have hp := generatePassword_configured w { req with timestamp := JVal.str (timestampOf w.now) }
    shortCode passKey (timestampOf w.now) hsc hpk rfl
  cases ho : (generateStkPush w { req with
      timestamp := JVal.str (timestampOf w.now),
      password := JVal.str (toBase64 (bufferFrom (shortCode ++ passKey ++ timestampOf w.now))),
      shortCode := JVal.str shortCode }).outcome <;>
    simp [runRoute, generateTimestamp, hp, ho]

theorem payloadOf_signed (req : Req) (shortCode passKey ts : String) :
    payloadOf { req with
        timestamp := JVal.str ts,
        password := JVal.str (toBase64 (bufferFrom (shortCode ++ passKey ++ ts))),
        shortCode := JVal.str shortCode }
      = stkPayload shortCode passKey ts (req.body.get "ammount") (req.body.get "phone") := rfl

theorem stkpush_events (w : World) (req : Req) (shortCode passKey : String)
    (hsc : w.env.SAFARICOM_SHORTCODE = some shortCode)
    (hpk : w.env.SAFARICOM_PASSKEY = some passKey)
    (url : JVal) (method authorization : String) (body : Option JVal)
    (h : Event.fetch Endpoint.stkPush url method authorization body
      ∈ (runRoute stkpushRoute w req).events) :
    body = some (stkPayload shortCode passKey (timestampOf w.now) (req.body.get "ammount")
        (req.body.get "phone"))
    ∧ req.body.isNullish = false
    ∧ (req.body.get "ammount").truthy = true ∧ (req.body.get "phone").truthy = true := by
  unfold stkpushRoute at h
  rcases runRoute_cons_events "checkAmmountPhone" checkAmmountPhone _ w req with ⟨h1, e1⟩ | ⟨_, e1⟩
  · rw [e1, checkAmmountPhone_events, List.nil_append] at h
    obtain ⟨hn, ha, hp, hr⟩ := checkAmmountPhone_next w req h1
    rw [hr] at h
    rcases runRoute_cons_events "generateToken" generateToken _ w req with ⟨_, e2⟩ | ⟨_, e2⟩
    · rw [e2, List.mem_append] at h
      rcases h with h | h
      · exact absurd h ((generateToken_body w req).2 _ _ _ _)
      · rw [(signed_tail w (generateToken w req).req shortCode passKey hsc hpk).1] at h
        have hb := (generateStkPush_events w _ _ _ _ _ _ h).2
        rw [payloadOf_signed, (generateToken_body w req).1] at hb
        exact ⟨hb, hn, ha, hp⟩
    · rw [e2] at h
      exact absurd h ((generateToken_body w req).2 _ _ _ _)
  · rw [e1, checkAmmountPhone_events] at h
    exact absurd h (List.not_mem_nil _)

theorem stkpush_sends (w : World) (req : Req) (shortCode passKey token : String) (status : Nat)
    (data : JVal)
    (hsc : w.env.SAFARICOM_SHORTCODE = some shortCode)
    (hpk : w.env.SAFARICOM_PASSKEY = some passKey)
    (hn : req.body.isNullish = false)
    (ha : (req.body.get "ammount").truthy = true) (hp : (req.body.get "phone").truthy = true)
    (hr : w.authResponse = FetchResult.response status (Except.ok data))
    (hok : statusOk status = true) (hd : data.isNullish = false)
    (ht : toStr (data.get "access_token") = Except.ok token) :
    Event.fetch Endpoint.stkPush (envValue w.env.SAFARICOM_STK_ENDPOINT) "POST"
        ("Bearer " ++ token)
        (some (stkPayload shortCode passKey (timestampOf w.now) (req.body.get "ammount")
          (req.body.get "phone")))
      ∈ (runRoute stkpushRoute w req).events
    ∧ (runRoute stkpushRoute w req).ran = ["checkAmmountPhone", "generateToken",
        "generateTimestamp", "generatePassword", "generateStkPush"] := by
  have hc : checkAmmountPhone w req = { events := [], req := req, outcome := Outcome.next } := by
    simp [checkAmmountPhone, hn, ha, hp]
  have hg : generateToken w req =
      { events := (generateToken w req).events,
        req := { req with token := data.get "access_token" }, outcome := Outcome.next } := by
    simp only [generateToken, hr, hok, Bool.not_true, Bool.false_eq_true, if_false,
      getProp_of_not_nullish data "access_token" hd]
  have ht2 := signed_tail w { req with token := data.get "access_token" } shortCode passKey hsc hpk
  have hs := generateStkPush_sends w { req with
      token := data.get "access_token",
      timestamp := JVal.str (timestampOf w.now),
      password := JVal.str (toBase64 (bufferFrom (shortCode ++ passKey ++ timestampOf w.now))),
      shortCode := JVal.str shortCode } token hn ht
  constructor
  · unfold stkpushRoute
    rw [runRoute]
    simp only [hc]
    rw [runRoute]
    rw [hg]
    simp only [List.nil_append, List.mem_append]
    right
    rw [ht2.1]
    exact hs
  · unfold stkpushRoute
    rw [runRoute]
    simp only [hc]
    rw [runRoute]
    rw [hg]
    simp only [ht2.2]

/-! ## The claims -/

/-! ### C1 -/

/-- C1. On a request whose body is a JSON value, `checkAmmountPhone` calls
`next()` with no error, no side effect and the request untouched whenever
`ammount` is a number above zero and `phone` a non-empty string; when `ammount`
is 0 or `undefined`, or `phone` is the empty string, it forwards the error
`amountPhoneRequired` (message "Amount and phone number are required.",
status 400), which the error
boundary answers with status 400, and the run of the stkpush route enters no
later handler and performs no side effect, so no network call is made. -/
theorem C1_checkAmmountPhone_validation (w : World) (req : Req)
    (hbody : req.body.isNullish = false) :
    (∀ (n : JNum) (s : String), req.body.get "ammount" = JVal.num n → n.isPositive = true →
        req.body.get "phone" = JVal.str s → s ≠ "" →
        checkAmmountPhone w req = { events := [], req := req, outcome := Outcome.next })
    ∧ ((req.body.get "ammount" = JVal.num (JNum.fin 0) ∨ req.body.get "ammount" = JVal.undefined
          ∨ req.body.get "phone" = JVal.str "") →
        (checkAmmountPhone w req).outcome = Outcome.nextError amountPhoneRequired
        ∧ (errorHandler amountPhoneRequired).1 = 400
        ∧ (runRoute stkpushRoute w req).final = Outcome.nextError amountPhoneRequired
        ∧ (runRoute stkpushRoute w req).ran = ["checkAmmountPhone"]
        ∧ (runRoute stkpushRoute w req).events = []
        ∧ (runRoute stkpushRoute w req).fetches = []) := by
  constructor
  · intro n s ha hn hp hs
    have ht := truthy_of_isPositive n hn
    simp only [checkAmmountPhone, hbody, ha, hp, JVal.truthy, ht, hs, ne_eq, not_false_eq_true,
      decide_True, Bool.not_true, Bool.or_self, Bool.false_eq_true, if_false]
  · intro h
    have hfalsy : (!(req.body.get "ammount").truthy || !(req.body.get "phone").truthy) = true := by
      rcases h with h | h | h <;> simp [h, JVal.truthy, JNum.truthy]
    have hc : checkAmmountPhone w req = { events := [], req := req, outcome := Outcome.nextError amountPhoneRequired } := by
      simp only [checkAmmountPhone, hbody, hfalsy, Bool.false_eq_true, if_false, if_true]
      rfl
    refine ⟨by rw [hc], rfl, ?_, ?_, ?_, ?_⟩ <;>
      simp only [runRoute, stkpushRoute, Run.fetches, hc, List.filter]

/-- C1, at `{ammount: 100, phone: "254712345678"}` and at `{ammount: 0, phone: "254712345678"}`. -/
theorem C1_checkAmmountPhone_validation_witness :
    checkAmmountPhone (sampleWorld 0)
        (Req.ofBody (JVal.obj [("ammount", JVal.int 100), ("phone", JVal.str "254712345678")]))
      = { events := [],
          req := Req.ofBody (JVal.obj [("ammount", JVal.int 100),
            ("phone", JVal.str "254712345678")]),
          outcome := Outcome.next }
    ∧ (runRoute stkpushRoute (sampleWorld 0)
        (Req.ofBody (JVal.obj [("ammount", JVal.int 0), ("phone", JVal.str "254712345678")]))).fetches
      = [] :=
  ⟨(C1_checkAmmountPhone_validation (sampleWorld 0)
      (Req.ofBody (JVal.obj [("ammount", JVal.int 100), ("phone", JVal.str "254712345678")]))
      rfl).1 (JNum.fin 100) "254712345678" rfl (by decide) rfl (by decide),
   ((C1_checkAmmountPhone_validation (sampleWorld 0)
      (Req.ofBody (JVal.obj [("ammount", JVal.int 0), ("phone", JVal.str "254712345678")]))
      rfl).2 (Or.inl rfl)).2.2.2.2.2⟩

/-! ### C2 -/

/-- C2, amended. For every instant `now` whose year lies from 1000 to 9999,
`generateTimestamp` attaches a string of exactly 14 characters, each a decimal
digit: the four digits of the year, then two digits each for the month (from 1
to 12), the day, the hour, the minute and the second of `now`. -/
theorem C2_generateTimestamp_format (w : World) (req : Req)
    (hyear : 1000 ≤ YearFromTime w.now ∧ YearFromTime w.now ≤ 9999) :
    (generateTimestamp w req).outcome = Outcome.next
    ∧ (generateTimestamp w req).req.timestamp = JVal.str (timestampOf w.now)
    ∧ timestampOf w.now = compactTimestamp (YearFromTime w.now).toNat
        (MonthFromTime w.now + 1).toNat (DateFromTime w.now).toNat (HourFromTime w.now).toNat
        (MinFromTime w.now).toNat (SecFromTime w.now).toNat
    ∧ (timestampOf w.now).length = 14
    ∧ (∀ c ∈ (timestampOf w.now).data, c.isDigit = true)
    ∧ (1 ≤ MonthFromTime w.now + 1 ∧ MonthFromTime w.now + 1 ≤ 12)
    ∧ (1 ≤ DateFromTime w.now ∧ DateFromTime w.now ≤ 31)
    ∧ (0 ≤ HourFromTime w.now ∧ HourFromTime w.now ≤ 23)
    ∧ (0 ≤ MinFromTime w.now ∧ MinFromTime w.now ≤ 59)
    ∧ (0 ≤ SecFromTime w.now ∧ SecFromTime w.now ≤ 59) := by
  have hm := MonthFromTime_bounds w.now
  have hd := DateFromTime_bounds w.now
  have hh := HourFromTime_bounds w.now
  have hmi := MinFromTime_bounds w.now
  have hs := SecFromTime_bounds w.now
  have heq := timestampOf_eq w.now hyear
  refine ⟨rfl, rfl, heq, ?_, ?_, by omega, hd, hh, hmi, hs⟩
  · rw [heq]; rfl
  · rw [heq]
    exact compactTimestamp_digits _ _ _ _ _ _ (by omega) (by omega) (by omega) (by omega)
      (by omega) (by omega)

/-- C2, amended, at 2024-01-15 10:30:00 (time value 1705314600000). -/
theorem C2_generateTimestamp_format_witness :
    (generateTimestamp (sampleWorld 1705314600000) (Req.ofBody JVal.null)).req.timestamp
      = JVal.str "20240115103000"
    ∧ (timestampOf (sampleWorld 1705314600000).now).length = 14 :=
  ⟨(C2_generateTimestamp_format (sampleWorld 1705314600000) (Req.ofBody JVal.null)
      (by decide)).2.1,
   (C2_generateTimestamp_format (sampleWorld 1705314600000) (Req.ofBody JVal.null)
      (by decide)).2.2.2.1⟩

/-- C2 as stated fails: at the instant 10000-01-01 00:00:00 (time value
253402300800000) `generateTimestamp` attaches `100000101000000`, a string of 15
characters. -/
theorem C2_counterexample :
    (generateTimestamp (sampleWorld 253402300800000) (Req.ofBody JVal.null)).req.timestamp
      = JVal.str "100000101000000"
    ∧ ("100000101000000" : String).length = 15
    ∧ ¬ (∀ now : Int, (timestampOf now).length = 14) :=
  ⟨rfl, rfl, fun h => absurd (h 253402300800000) (by decide)⟩

/-! ### C3 -/

/-- C3, amended. For every instant `now` whose year lies from 1000 to 9999, the
fixed-offset decoding of the callback handlers, applied to the string
`generateTimestamp` builds from `now`, gives the Date of `now` cut to the whole
second, whose year, month, day, hour, minute and second are those of `now`. -/
theorem C3_timestamp_round_trip (w : World) (req : Req)
    (hyear : 1000 ≤ YearFromTime w.now ∧ YearFromTime w.now ≤ 9999) :
    (generateTimestamp w req).req.timestamp = JVal.str (timestampOf w.now)
    ∧ decodeTimestamp (timestampOf w.now) = dateOfTime (w.now - w.now % 1000)
    ∧ (decodeTimestamp (timestampOf w.now)).fields = (dateOfTime w.now).fields
    ∧ (dateOfTime w.now).fields = fieldsOf (YearFromTime w.now) (MonthFromTime w.now)
        (DateFromTime w.now) (HourFromTime w.now) (MinFromTime w.now) (SecFromTime w.now) := by
  refine ⟨rfl, roundtrip_tv w.now hyear, ?_, rfl⟩
  rw [roundtrip_tv w.now hyear, fields_trunc]

/-- C3, amended, at 2024-01-15 10:30:00.789 (time value 1705314600789). -/
theorem C3_timestamp_round_trip_witness :
    decodeTimestamp (timestampOf (sampleWorld 1705314600789).now) = dateOfTime 1705314600000
    ∧ (decodeTimestamp (timestampOf (sampleWorld 1705314600789).now)).fields
        = fieldsOf 2024 0 15 10 30 0 :=
  ⟨(C3_timestamp_round_trip (sampleWorld 1705314600789) (Req.ofBody JVal.null) (by decide)).2.1,
   ((C3_timestamp_round_trip (sampleWorld 1705314600789) (Req.ofBody JVal.null)
      (by decide)).2.2.1).trans (by decide)⟩

/-- C3 as stated fails: at the instant 10000-01-01 00:00:00 (time value
253402300800000) the string is `100000101000000`, which decodes to
999-12-10 10:00:00, not to the fields of the instant. -/
theorem C3_counterexample :
    timestampOf 253402300800000 = "100000101000000"
    ∧ (decodeTimestamp (timestampOf 253402300800000)).fields = fieldsOf 999 11 10 10 0 0
    ∧ (dateOfTime 253402300800000).fields = fieldsOf 10000 0 1 0 0 0
    ∧ (decodeTimestamp (timestampOf 253402300800000)).fields
        ≠ (dateOfTime 253402300800000).fields := by
  refine ⟨by decide, by decide, by decide, by decide⟩

/-! ### C4 -/

/-- C4. The password `generatePassword` attaches depends on nothing but the
short code, the pass key and the timestamp: it is the Base64 string of their
concatenation, whatever the rest of the world and of the request; and two
triples that differ in exactly one component give different passwords. -/
theorem C4_generatePassword_deterministic_sensitive (shortCode passKey timestamp : String) :
    (∀ (w w2 : World) (req req2 : Req),
        passwordOf w req shortCode passKey timestamp
          = passwordOf w2 req2 shortCode passKey timestamp)
    ∧ (∀ (w : World) (req : Req), passwordOf w req shortCode passKey timestamp
        = JVal.str (toBase64 (bufferFrom (shortCode ++ passKey ++ timestamp))))
    ∧ (∀ (w : World) (req : Req) (other : String), other ≠ shortCode →
        passwordOf w req other passKey timestamp ≠ passwordOf w req shortCode passKey timestamp)
    ∧ (∀ (w : World) (req : Req) (other : String), other ≠ passKey →
        passwordOf w req shortCode other timestamp ≠ passwordOf w req shortCode passKey timestamp)
    ∧ (∀ (w : World) (req : Req) (other : String), other ≠ timestamp →
        passwordOf w req shortCode passKey other
          ≠ passwordOf w req shortCode passKey timestamp) := by
  refine ⟨fun _ _ _ _ => rfl, fun _ _ => rfl, ?_, ?_, ?_⟩
  · intro w req other hne h
    rw [generatePassword_strings, generatePassword_strings] at h
    have h2 := password_injective _ _ (JVal.str.inj h)
    apply hne
    have h3 := congrArg String.data h2
    simp only [String.data_append] at h3
    exact String.ext (List.append_cancel_right (List.append_cancel_right h3))
  · intro w req other hne h
    rw [generatePassword_strings, generatePassword_strings] at h
    have h2 := password_injective _ _ (JVal.str.inj h)
    apply hne
    have h3 := congrArg String.data h2
    simp only [String.data_append] at h3
    exact String.ext (List.append_cancel_left (List.append_cancel_right h3))
  · intro w req other hne h
    rw [generatePassword_strings, generatePassword_strings] at h
    have h2 := password_injective _ _ (JVal.str.inj h)
    apply hne
    have h3 := congrArg String.data h2
    simp only [String.data_append, List.append_assoc] at h3
    exact String.ext (List.append_cancel_left (List.append_cancel_left h3))

/-- C4, at the short code "174379" against "174380", the pass key and the
timestamp unchanged. -/
theorem C4_generatePassword_deterministic_sensitive_witness :
    passwordOf (sampleWorld 0) (Req.ofBody JVal.null) "174380" "bfb279" "20240115103000"
      ≠ passwordOf (sampleWorld 0) (Req.ofBody JVal.null) "174379" "bfb279" "20240115103000" :=
  (C4_generatePassword_deterministic_sensitive "174379" "bfb279" "20240115103000").2.2.1
    (sampleWorld 0) (Req.ofBody JVal.null) "174380" (by decide)

/-! ### C5 -/

/-- C5. For every callback body flagged as a success (`ResultCode` the number 0,
`ResultDesc` exactly the success sentence) whose `CallbackMetadata.Item` is a list
of items in any order, none of them `null`, and whose TransactionDate value
prints as the string `ts`, `stkCallBack` logs as amount, phone number and
receipt the `Value` of the first item named `Amount`, `PhoneNumber` and
`MpesaReceiptNumber`, logs as date the decoding of `ts`, and acknowledges; and
when the TransactionDate is the 14-digit number (or the 14-character string)
`YYYYMMDDHHMMSS` of a calendar date and time, that date has exactly those year,
month (counted from 0), day, hour, minute and second. -/
theorem C5_stkCallBack_extracts (w : World) (req : Req) (xs : List JVal) (ts : String)
    (hflag : successFlagged ((req.body.opt "Body").opt "stkCallback"))
    (hitems : (((req.body.opt "Body").opt "stkCallback").opt "CallbackMetadata").opt "Item"
      = JVal.arr xs)
    (hnull : ∀ item ∈ xs, item.isNullish = false)
    (hts : toStr (firstValue xs "TransactionDate") = Except.ok ts) :
    stkCallBack w req =
      { events := [Event.log (LogEntry.paymentProcessed (firstValue xs "Amount")
          (firstValue xs "PhoneNumber") (firstValue xs "MpesaReceiptNumber")
          (decodeTimestamp ts))],
        req := req, outcome := Outcome.respond 200 ackSuccess }
    ∧ (∀ (y mo d h mi s : Nat), 1000 ≤ y ∧ y ≤ 9999 → 1 ≤ mo ∧ mo ≤ 12 →
        1 ≤ (d : Int) ∧ (d : Int) ≤ DaysInMonth ((mo : Int) - 1) (leapDay (y : Int)) →
        h ≤ 23 → mi ≤ 59 → s ≤ 59 →
        (firstValue xs "TransactionDate" = JVal.int ((y * 10000000000 + mo * 100000000
            + d * 1000000 + h * 10000 + mi * 100 + s : Nat) : Int)
          ∨ firstValue xs "TransactionDate" = JVal.str (compactTimestamp y mo d h mi s)) →
        (decodeTimestamp ts).fields = fieldsOf y ((mo : Int) - 1) d h mi s) := by
  refine ⟨stkCallBack_flagged w req xs ts hflag hitems hnull hts, ?_⟩
  intro y mo d h mi s hy hmo hd hh hmi hs hv
  have hd31 : (d : Int) ≤ 31 := by
    have T := monthStart_DaysInMonth ((mo : Int) - 1) (leapDay (y : Int)) (by omega)
    have hl := leapDay_cases (y : Int)
    omega
  have hstr : ts = compactTimestamp y mo d h mi s := by
    rcases hv with hv | hv
    · rw [hv, toStr_compact_number y mo d h mi s hy (by omega) (by omega) (by omega) (by omega)
        (by omega)] at hts
      exact (Except.ok.inj hts).symm
    · rw [hv] at hts
      exact (Except.ok.inj hts).symm
  rw [hstr]
  exact decode_calendar y mo d h mi s ⟨by omega, hy.2⟩ hmo hd hh hmi hs

/-- C5, at the example of the specification: Amount 500, PhoneNumber
254712345678, MpesaReceiptNumber "ABC123", TransactionDate 20240115103000, the
items given out of order. -/
theorem C5_stkCallBack_extracts_witness :
    (stkCallBack (sampleWorld 0) (Req.ofBody exampleStkBody)).events
      = [Event.log (LogEntry.paymentProcessed (JVal.int 500) (JVal.int 254712345678)
          (JVal.str "ABC123") (decodeTimestamp "20240115103000"))]
    ∧ (decodeTimestamp "20240115103000").fields = fieldsOf 2024 0 15 10 30 0 :=
  ⟨congrArg HandlerResult.events
      (C5_stkCallBack_extracts (sampleWorld 0) (Req.ofBody exampleStkBody) exampleItems
        "20240115103000" ⟨rfl, rfl⟩ rfl (by decide) rfl).1,
   (C5_stkCallBack_extracts (sampleWorld 0) (Req.ofBody exampleStkBody) exampleItems
        "20240115103000" ⟨rfl, rfl⟩ rfl (by decide) rfl).2 2024 1 15 10 30 0 (by decide)
        (by decide) (by decide) (by decide) (by decide) (by decide) (Or.inl rfl)⟩

/-! ### C6 -/

/-- C6, amended. `stkCallBack` answers `{status: "success"}` and forwards no
error for every body that is not flagged as a success, and for every flagged
body whose `CallbackMetadata.Item` is an array holding no `null` and whose
TransactionDate value prints as a string; on a flagged body, an exception
raised while the metadata is read is passed to `next` by the `catch` block, as
happens whenever `Item` is not an array (`CallbackMetadata` or `Item` missing). -/
theorem C6_stkCallBack_acknowledges (w : World) (req : Req) :
    (¬ successFlagged ((req.body.opt "Body").opt "stkCallback") →
        (stkCallBack w req).outcome = Outcome.respond 200 ackSuccess
        ∧ (runRoute callbackRoute w req).final = Outcome.respond 200 ackSuccess)
    ∧ (successFlagged ((req.body.opt "Body").opt "stkCallback") →
        ∀ (xs : List JVal) (ts : String),
          (((req.body.opt "Body").opt "stkCallback").opt "CallbackMetadata").opt "Item"
            = JVal.arr xs →
          (∀ item ∈ xs, item.isNullish = false) →
          toStr (firstValue xs "TransactionDate") = Except.ok ts →
          (stkCallBack w req).outcome = Outcome.respond 200 ackSuccess
          ∧ (runRoute callbackRoute w req).final = Outcome.respond 200 ackSuccess)
    ∧ (successFlagged ((req.body.opt "Body").opt "stkCallback") →
        ∀ e : JSError,
          stkExtract ((((req.body.opt "Body").opt "stkCallback").opt "CallbackMetadata").opt
            "Item") = Except.error e →
          (stkCallBack w req).outcome = Outcome.nextError e
          ∧ (runRoute callbackRoute w req).final = Outcome.nextError e)
    ∧ (successFlagged ((req.body.opt "Body").opt "stkCallback") →
        (∀ xs : List JVal,
          (((req.body.opt "Body").opt "stkCallback").opt "CallbackMetadata").opt "Item"
            ≠ JVal.arr xs) →
        (stkCallBack w req).outcome
          = Outcome.nextError (typeError "items.find is not a function")) := by
  refine ⟨?_, ?_, ?_, ?_⟩
  · intro h
    have hc := stkCallBack_not_flagged w req h
    constructor
    · rw [hc]
    · simp only [runRoute, callbackRoute, hc]
  · intro h xs ts hitems hnull hts
    have hc := stkCallBack_flagged w req xs ts h hitems hnull hts
    constructor
    · rw [hc]
    · simp only [runRoute, callbackRoute, hc]
  · intro h e he
    have hc : (stkCallBack w req).outcome = Outcome.nextError e := by
      simp only [stkCallBack, (flagged_iff _).mpr h, if_true, he]
    constructor
    · exact hc
    · simp only [runRoute, callbackRoute, hc]
  · intro h hna
    have he : stkExtract ((((req.body.opt "Body").opt "stkCallback").opt "CallbackMetadata").opt
        "Item") = Except.error (typeError "items.find is not a function") := by
      cases hi : (((req.body.opt "Body").opt "stkCallback").opt "CallbackMetadata").opt "Item" with
      | arr xs => exact absurd hi (hna xs)
      | _ => rfl
    simp only [stkCallBack, (flagged_iff _).mpr h, if_true, he]

/-- C6, amended, at a body with no `Body` and at the example of the specification. -/
theorem C6_stkCallBack_acknowledges_witness :
    (stkCallBack (sampleWorld 0) (Req.ofBody (JVal.obj []))).outcome
      = Outcome.respond 200 ackSuccess
    ∧ (stkCallBack (sampleWorld 0) (Req.ofBody exampleStkBody)).outcome
      = Outcome.respond 200 ackSuccess :=
  ⟨((C6_stkCallBack_acknowledges (sampleWorld 0) (Req.ofBody (JVal.obj []))).1
      (fun h => JVal.noConfusion h.1)).1,
   ((C6_stkCallBack_acknowledges (sampleWorld 0) (Req.ofBody exampleStkBody)).2.1 ⟨rfl, rfl⟩
      exampleItems "20240115103000" rfl (by decide) rfl).1⟩

/-- C6 as stated fails: on a body flagged as a success that carries no
`CallbackMetadata`, `items.find` raises a TypeError, the `catch` block passes it
to `next`, and the error boundary answers with status 500 and
`{success: false, message}`; no `{status: "success"}` is sent. -/
theorem C6_counterexample :
    (stkCallBack (sampleWorld 0) (Req.ofBody (stkBody (JVal.int 0) successSentence none))).outcome
      = Outcome.nextError (typeError "items.find is not a function")
    ∧ (runRoute callbackRoute (sampleWorld 0)
        (Req.ofBody (stkBody (JVal.int 0) successSentence none))).final
      = Outcome.nextError (typeError "items.find is not a function")
    ∧ (errorHandler (typeError "items.find is not a function")).1 = 500 :=
  ⟨rfl, rfl, rfl⟩

/-! ### C7 -/

/-- C7. For every direct-payment body whose `TransID`, `TransTime`,
`BillRefNumber`, `FirstName`, `LastName`, `TransAmount` and `MSISDN` are strings,
`paybillCallback` answers with a `paymentData` record whose `customer_id` is
`BillRefNumber` with the characters that are not decimal digits removed,
`customer_name` is `FirstName + " " + LastName`, `amount` is the number
`TransAmount` converts to, the nearest double of its value (its decimal value
itself when it is a run of digits worth at most `2 ^ 53`),
`payment_id` and `service_provider_ref` are `TransID`, `hashedPhoneNumber` is
`MSISDN` and `payment_status` is "success". -/
theorem C7_paybillCallback_record (w : World) (req : Req)
    (transId transTime billRef firstName lastName transAmount msisdn : String)
    (h1 : req.body.opt "TransID" = JVal.str transId)
    (h2 : req.body.opt "TransTime" = JVal.str transTime)
    (h3 : req.body.opt "BillRefNumber" = JVal.str billRef)
    (h4 : req.body.opt "FirstName" = JVal.str firstName)
    (h5 : req.body.opt "LastName" = JVal.str lastName)
    (h6 : req.body.opt "TransAmount" = JVal.str transAmount)
    (h7 : req.body.opt "MSISDN" = JVal.str msisdn) :
    ∃ p : PaymentData,
      (paybillCallback w req).outcome = Outcome.respond 200 (ResBody.paymentData p)
      ∧ (runRoute paybillcallbackRoute w req).final
          = Outcome.respond 200 (ResBody.paymentData p)
      ∧ p.customer_id = JVal.str (String.mk (billRef.data.filter Char.isDigit))
      ∧ p.customer_name = JVal.str (firstName ++ " " ++ lastName)
      ∧ p.amount = stringToNumber transAmount
      ∧ p.amount = roundToDouble (stringNumericValue transAmount)
      ∧ (transAmount.data ≠ [] → (∀ c ∈ transAmount.data, c.isDigit = true) →
          digitsValue transAmount.data ≤ 2 ^ 53 →
          p.amount = JNum.fin (digitsValue transAmount.data : ℚ))
      ∧ p.payment_id = JVal.str transId
      ∧ p.service_provider_ref = JVal.str transId
      ∧ p.hashedPhoneNumber = JVal.str msisdn
      ∧ p.payment_status = "success"
      ∧ p.date = decodeTimestamp transTime := by
  have hrec : paybillRecord req.body = Except.ok
      { payment_id := JVal.str transId, date := decodeTimestamp transTime,
        service_provider := "SAFARICOMC2B", service_provider_ref := JVal.str transId,
        customer_id := JVal.str (removeNonDigits billRef),
        customer_name := JVal.str (firstName ++ " " ++ lastName),
        amount := stringToNumber transAmount, service_provided := "GRIDPAYMENT",
        description := "Customer payment for grid bundles", payment_status := "success",
        hashedPhoneNumber := JVal.str msisdn } := by
    simp only [paybillRecord, h1, h2, h3, h4, h5, h6, h7, replaceNonDigits, jsAdd, toPrimitive,
      Except.bind, toNumber, Except.map, primitiveToNumber]
  refine ⟨
    { payment_id := JVal.str transId, date := decodeTimestamp transTime,
      service_provider := "SAFARICOMC2B", service_provider_ref := JVal.str transId,
      customer_id := JVal.str (removeNonDigits billRef),
      customer_name := JVal.str (firstName ++ " " ++ lastName),
      amount := stringToNumber transAmount, service_provided := "GRIDPAYMENT",
      description := "Customer payment for grid bundles", payment_status := "success",
      hashedPhoneNumber := JVal.str msisdn },
    ?_, ?_, rfl, rfl, rfl, rfl, ?_, rfl, rfl, rfl, rfl, rfl⟩
  · simp only [paybillCallback, hrec]
  · simp only [runRoute, paybillcallbackRoute, paybillCallback, hrec]
  · intro hne hdig hbound
    exact stringToNumber_digits transAmount.data hne hdig hbound

/-- C7, at the example of the specification. -/
theorem C7_paybillCallback_record_witness :
    ∃ p : PaymentData,
      (paybillCallback (sampleWorld 0) (Req.ofBody examplePaybillBody)).outcome
        = Outcome.respond 200 (ResBody.paymentData p)
      ∧ p.customer_id = JVal.str "00123"
      ∧ p.customer_name = JVal.str "Jane Doe"
      ∧ p.amount = JNum.fin 750
      ∧ p.payment_status = "success" := by
  obtain ⟨p, h1, _, h3, h4, _, _, h6, _, _, _, h10, _⟩ :=
    C7_paybillCallback_record (sampleWorld 0) (Req.ofBody examplePaybillBody) "XYZ"
      "20240115103000" "ACCT-00123" "Jane" "Doe" "750" "hash1" rfl rfl rfl rfl rfl rfl rfl
  exact ⟨p, h1, h3.trans rfl, h4.trans rfl,
    (h6 (by decide) (by decide) (by decide)).trans (by decide), h10⟩

/-! ### C8 -/

/-- C8, the code at the failing input. On `POST /safpayment/registerpaybill`
with `{confirmation_url: ""}` and a provider that grants a token, the route
first runs `generateToken`, which makes the token fetch, and only then
`registerPaybillUrl`, whose check throws `Error("No url provided in register
paybill endpoint")` outside the `try` block: the handler's promise rejects, the
error is not passed to `next` by the handler, it carries no status, and the
error boundary would answer it with status 500. The registration POST is not
made. -/
theorem C8_registerPaybillUrl_empty_url :
    (runRoute registerpaybillRoute (sampleWorld 0)
        (Req.ofBody (JVal.obj [("confirmation_url", JVal.str "")]))).ran
      = ["generateToken", "registerPaybillUrl"]
    ∧ ((runRoute registerpaybillRoute (sampleWorld 0)
        (Req.ofBody (JVal.obj [("confirmation_url", JVal.str "")]))).fetches.map
          (fun e => match e with
            | Event.fetch endpoint _ _ _ _ => some endpoint
            | Event.log _ => none))
      = [some Endpoint.auth]
    ∧ (runRoute registerpaybillRoute (sampleWorld 0)
        (Req.ofBody (JVal.obj [("confirmation_url", JVal.str "")]))).final
      = Outcome.rejected (newError "No url provided in register paybill endpoint")
    ∧ (newError "No url provided in register paybill endpoint").status = none
    ∧ (errorHandler (newError "No url provided in register paybill endpoint")).1 = 500
    ∧ (runRoute registerpaybillRoute (sampleWorld 0) (Req.ofBody (JVal.obj []))).final
      = Outcome.rejected (newError "No url provided in register paybill endpoint") :=
  ⟨rfl, rfl, rfl, rfl, rfl, rfl⟩

/-! ### C9 -/

/-- C9, amended. When the provider answers the auth call with a success status
and a JSON body other than `null`, `generateToken` sets the request's token to
the body's `access_token` (`undefined` when the body has none) and calls
`next()`; when the provider answers with a status that is not a success,
`generateToken` forwards the error `tokenError` (status 400), and a route that
starts with it enters no later handler. -/
theorem C9_generateToken_outcomes (w : World) (req : Req) :
    (∀ (status : Nat) (data : JVal),
        w.authResponse = FetchResult.response status (Except.ok data) →
        statusOk status = true → data.isNullish = false →
        (generateToken w req).outcome = Outcome.next
        ∧ (generateToken w req).req = { req with token := data.get "access_token" }
        ∧ (data.hasOwn "access_token" = false → (generateToken w req).req.token = JVal.undefined))
    ∧ (∀ (status : Nat) (body : Except JSError JVal),
        w.authResponse = FetchResult.response status body → statusOk status = false →
        (generateToken w req).outcome = Outcome.nextError tokenError
        ∧ (errorHandler tokenError).1 = 400
        ∧ ∀ (name : String) (rest : List (String × Handler)),
            (runRoute ((name, generateToken) :: rest) w req).ran = [name]
            ∧ (runRoute ((name, generateToken) :: rest) w req).final
                = Outcome.nextError tokenError) := by
  constructor
  · intro status data hr hok hnn
    have hg : generateToken w req =
        { events := (generateToken w req).events,
          req := { req with token := data.get "access_token" }, outcome := Outcome.next } := by
      simp only [generateToken, hr, hok, Bool.not_true, Bool.false_eq_true, if_false,
        getProp_of_not_nullish data "access_token" hnn]
    refine ⟨by rw [hg], by rw [hg], ?_⟩
    intro habs
    rw [hg]
    cases data with
    | obj fields =>
      cases hl : fields.lookup "access_token" with
      | none => simp only [JVal.get, hl, Option.getD_none]
      | some v => simp [JVal.hasOwn, hl] at habs
    | _ => rfl
  · intro status body hr hok
    have hg : (generateToken w req).outcome = Outcome.nextError tokenError := by
      simp only [generateToken, hr, hok, Bool.not_false, if_true]
      rfl
    refine ⟨hg, rfl, ?_⟩
    intro name rest
    simp only [runRoute, hg, and_self]

/-- C9, amended, at a 200 answer carrying a token and at a 401 answer. -/
theorem C9_generateToken_outcomes_witness :
    (generateToken (sampleWorld 0) (Req.ofBody (JVal.obj []))).req
      = { Req.ofBody (JVal.obj []) with token := JVal.str "tok" }
    ∧ (generateToken { sampleWorld 0 with
          authResponse := FetchResult.response 401 (Except.ok (JVal.obj [])) }
        (Req.ofBody (JVal.obj []))).outcome = Outcome.nextError tokenError :=
  ⟨((C9_generateToken_outcomes (sampleWorld 0) (Req.ofBody (JVal.obj []))).1 200
      (JVal.obj [("access_token", JVal.str "tok")]) rfl rfl rfl).2.1,
   ((C9_generateToken_outcomes { sampleWorld 0 with
          authResponse := FetchResult.response 401 (Except.ok (JVal.obj [])) }
      (Req.ofBody (JVal.obj []))).2 401 (Except.ok (JVal.obj [])) rfl rfl).1⟩

/-- C9 as stated fails: on a 200 answer whose JSON body `{}` has no
`access_token`, `generateToken` raises no error; it sets the token to `undefined`
and calls `next()`, and the stkpush route goes on through every later handler,
sending the push request with the header `Bearer undefined`. -/
theorem C9_counterexample :
    (generateToken { sampleWorld 0 with authResponse := okResponse (JVal.obj []) }
        (Req.ofBody (JVal.obj []))).outcome = Outcome.next
    ∧ (generateToken { sampleWorld 0 with authResponse := okResponse (JVal.obj []) }
        (Req.ofBody (JVal.obj []))).req.token = JVal.undefined
    ∧ (runRoute stkpushRoute { sampleWorld 1705314600000 with
          authResponse := okResponse (JVal.obj []) }
        (Req.ofBody (JVal.obj [("ammount", JVal.int 100),
          ("phone", JVal.str "254712345678")]))).ran
      = ["checkAmmountPhone", "generateToken", "generateTimestamp", "generatePassword",
         "generateStkPush"]
    ∧ ((runRoute stkpushRoute { sampleWorld 1705314600000 with
          authResponse := okResponse (JVal.obj []) }
        (Req.ofBody (JVal.obj [("ammount", JVal.int 100),
          ("phone", JVal.str "254712345678")]))).fetches.map
          (fun e => match e with
            | Event.fetch endpoint _ _ authorization _ => some (endpoint, authorization)
            | Event.log _ => none))
      = [some (Endpoint.auth, "Basic a2V5OnNlY3JldA=="),
         some (Endpoint.stkPush, "Bearer undefined")] :=
  ⟨rfl, rfl, rfl, rfl⟩

/-! ### C10 -/

/-- C10. For every body that is not flagged as a success (`ResultCode` is not
the number 0, or `ResultDesc` is not exactly the success sentence), `stkCallBack`
logs the failure record holding `Body.stkCallback`, does nothing else (no item of
`CallbackMetadata` is looked up, whatever the metadata holds), forwards no error
and answers `{status: "success"}`. -/
theorem C10_stkCallBack_failure_path (w : World) (req : Req)
    (h : (((req.body.opt "Body").opt "stkCallback").opt "ResultCode" ≠ JVal.num (JNum.fin 0))
      ∨ (((req.body.opt "Body").opt "stkCallback").opt "ResultDesc"
          ≠ JVal.str "The service request is processed successfully.")) :
    stkCallBack w req =
      { events := [Event.log (LogEntry.paymentFailed ((req.body.opt "Body").opt "stkCallback"))],
        req := req, outcome := Outcome.respond 200 ackSuccess }
    ∧ (runRoute callbackRoute w req).final = Outcome.respond 200 ackSuccess
    ∧ (runRoute callbackRoute w req).events
        = [Event.log (LogEntry.paymentFailed ((req.body.opt "Body").opt "stkCallback"))] := by
  have hn : ¬ successFlagged ((req.body.opt "Body").opt "stkCallback") := by
    intro hf
    rcases h with h | h
    · exact h hf.2
    · exact h hf.1
  have hc := stkCallBack_not_flagged w req hn
  refine ⟨hc, ?_, ?_⟩ <;> simp only [runRoute, callbackRoute, hc]

/-- C10, at a body with no `Body`, at a body whose `ResultCode` is the string
"0", and at a cancelled payment (code 1032) whose metadata is missing. -/
theorem C10_stkCallBack_failure_path_witness :
    (stkCallBack (sampleWorld 0) (Req.ofBody (JVal.obj []))).outcome
      = Outcome.respond 200 ackSuccess
    ∧ (stkCallBack (sampleWorld 0)
        (Req.ofBody (stkBody (JVal.str "0") successSentence none))).outcome
      = Outcome.respond 200 ackSuccess
    ∧ (stkCallBack (sampleWorld 0)
        (Req.ofBody (stkBody (JVal.int 1032) (JVal.str "Request cancelled by user") none))).events
      = [Event.log (LogEntry.paymentFailed (JVal.obj [("ResultCode", JVal.int 1032),
          ("ResultDesc", JVal.str "Request cancelled by user")]))] :=
  ⟨congrArg HandlerResult.outcome
      (C10_stkCallBack_failure_path (sampleWorld 0) (Req.ofBody (JVal.obj []))
        (Or.inl (fun h => JVal.noConfusion h))).1,
   congrArg HandlerResult.outcome
      (C10_stkCallBack_failure_path (sampleWorld 0)
        (Req.ofBody (stkBody (JVal.str "0") successSentence none))
        (Or.inl (fun h => JVal.noConfusion h))).1,
   congrArg HandlerResult.events
      (C10_stkCallBack_failure_path (sampleWorld 0)
        (Req.ofBody (stkBody (JVal.int 1032) (JVal.str "Request cancelled by user") none))
        (Or.inr (fun h => by
          have h2 : "Request cancelled by user"
              = "The service request is processed successfully." := JVal.str.inj h
          exact absurd h2 (by decide)))).1⟩

/-! ### C11 -/

/-- C11. With the short code and the pass key configured, for every request and
every clock value: whatever push request a run of the stkpush route sends
carries the payload `stkPayload`, built from the timestamp `generateTimestamp`
made in that run, and it is sent only for a validated request (`ammount` and
`phone` truthy); once the token stage succeeds with a printable token the push
request is sent, after all five handlers ran. In that payload `Password` is
Base64 of `BusinessShortCode + passKey + Timestamp`, `BusinessShortCode` and
`PartyB` are the short code, `PartyA` and `PhoneNumber` the phone, `Amount` the
amount and `TransactionType` is "CustomerPayBillOnline". -/
theorem C11_stkpush_payload (w : World) (req : Req) (shortCode passKey : String)
    (hsc : w.env.SAFARICOM_SHORTCODE = some shortCode)
    (hpk : w.env.SAFARICOM_PASSKEY = some passKey) :
    (∀ (url : JVal) (method authorization : String) (body : Option JVal),
        Event.fetch Endpoint.stkPush url method authorization body
          ∈ (runRoute stkpushRoute w req).events →
        body = some (stkPayload shortCode passKey (timestampOf w.now) (req.body.get "ammount")
            (req.body.get "phone"))
        ∧ req.body.isNullish = false
        ∧ (req.body.get "ammount").truthy = true ∧ (req.body.get "phone").truthy = true)
    ∧ (∀ (status : Nat) (data : JVal) (token : String),
        req.body.isNullish = false → (req.body.get "ammount").truthy = true →
        (req.body.get "phone").truthy = true →
        w.authResponse = FetchResult.response status (Except.ok data) →
        statusOk status = true → data.isNullish = false →
        toStr (data.get "access_token") = Except.ok token →
        Event.fetch Endpoint.stkPush (envValue w.env.SAFARICOM_STK_ENDPOINT) "POST"
            ("Bearer " ++ token)
            (some (stkPayload shortCode passKey (timestampOf w.now) (req.body.get "ammount")
              (req.body.get "phone")))
          ∈ (runRoute stkpushRoute w req).events
        ∧ (runRoute stkpushRoute w req).ran = ["checkAmmountPhone", "generateToken",
            "generateTimestamp", "generatePassword", "generateStkPush"])
    ∧ (∀ r : Req, (generateTimestamp w r).req.timestamp = JVal.str (timestampOf w.now))
    ∧ (∀ (ts : String) (ammount phone : JVal),
        (stkPayload shortCode passKey ts ammount phone).get "Password"
          = JVal.str (toBase64 (bufferFrom (shortCode ++ passKey ++ ts)))
        ∧ (stkPayload shortCode passKey ts ammount phone).get "Timestamp" = JVal.str ts
        ∧ (stkPayload shortCode passKey ts ammount phone).get "BusinessShortCode"
            = JVal.str shortCode
        ∧ (stkPayload shortCode passKey ts ammount phone).get "PartyB" = JVal.str shortCode
        ∧ (stkPayload shortCode passKey ts ammount phone).get "PartyA" = phone
        ∧ (stkPayload shortCode passKey ts ammount phone).get "PhoneNumber" = phone
        ∧ (stkPayload shortCode passKey ts ammount phone).get "Amount" = ammount
        ∧ (stkPayload shortCode passKey ts ammount phone).get "TransactionType"
            = JVal.str "CustomerPayBillOnline") := by
  refine ⟨?_, ?_, fun _ => rfl, fun _ _ _ => ⟨rfl, rfl, rfl, rfl, rfl, rfl, rfl, rfl⟩⟩
  · intro url method authorization body h
    exact stkpush_events w req shortCode passKey hsc hpk url method authorization body h
  · intro status data token hn ha hp hr hok hd ht
    exact stkpush_sends w req shortCode passKey token status data hsc hpk hn ha hp hr hok hd ht

/-- C11, at `{ammount: 100, phone: "254712345678"}`, short code "174379", pass
key "passkey", on 2024-01-15 10:30:00: the push request is sent with the
password Base64("174379passkey20240115103000"). -/
theorem C11_stkpush_payload_witness :
    Event.fetch Endpoint.stkPush
        (JVal.str "https://sandbox.safaricom.co.ke/mpesa/stkpush/v1/processrequest") "POST"
        "Bearer tok"
        (some (stkPayload "174379" "passkey" "20240115103000" (JVal.int 100)
          (JVal.str "254712345678")))
      ∈ (runRoute stkpushRoute (sampleWorld 1705314600000)
          (Req.ofBody (JVal.obj [("ammount", JVal.int 100),
            ("phone", JVal.str "254712345678")]))).events
    ∧ (stkPayload "174379" "passkey" "20240115103000" (JVal.int 100)
        (JVal.str "254712345678")).get "Password"
      = JVal.str "MTc0Mzc5cGFzc2tleTIwMjQwMTE1MTAzMDAw" :=
  ⟨((C11_stkpush_payload (sampleWorld 1705314600000)
      (Req.ofBody (JVal.obj [("ammount", JVal.int 100), ("phone", JVal.str "254712345678")]))
      "174379" "passkey" rfl rfl).2.1 200 (JVal.obj [("access_token", JVal.str "tok")]) "tok"
      rfl rfl rfl rfl rfl rfl rfl).1,
   ((C11_stkpush_payload (sampleWorld 1705314600000)
      (Req.ofBody (JVal.obj [("ammount", JVal.int 100), ("phone", JVal.str "254712345678")]))
      "174379" "passkey" rfl rfl).2.2.2 "20240115103000" (JVal.int 100)
      (JVal.str "254712345678")).1.trans rfl⟩

end Mpesa
